import Mathlib

/-!
# Verification of the `ColliderComponentData` FlatBuffers binding

This development embeds, at byte level, the serialization logic of
`src/include/ECS/Schemas/collider_component_generated.rs`: a FlatBuffers
table with seven fields (`collider_type : ColliderType` enum over `i8`
defaulting to `Box = 0`, `is_trigger : bool` defaulting to `false`,
`size : Vec3` optional inline struct, `radius : f32` and `height : f32`
defaulting to `0.0`, and the optional strings `material_name` and
`mesh_path`), together with its builder, verifier and accessors.

The generated file calls into the `flatbuffers` runtime crate, which is not
part of this repository's sources; those runtime pieces (scalar codec,
buffer builder, table reader, verifier) are modelled from the spec's wire
format description: a buffer is `[4-byte LE root offset][optional 4-byte
file identifier][...]`, a table is `[4-byte LE backward offset to
vtable][inline field bytes]`, a vtable is `[2-byte LE vtable
length][2-byte LE table length][2-byte LE per-slot inline offset, 0 =
absent]...`, and a string is `[4-byte LE length][bytes][NUL]`.

Bytes are modelled as `Nat` reduced modulo 256 on decode; `f32` values are
modelled by their 32-bit pattern (the only float operation the code
performs is the `push_slot` comparison against the default `0.0`, which at
bit level identifies `0x00000000` and `0x80000000` and nothing else);
`i8`/`i32` values are modelled as `Int` with explicit two's-complement
conversion.
-/

namespace PixelCraftECS

/-! ## Little-endian scalar codec -/

/-- Modelled from the spec: decode a little-endian byte sequence into a
natural number; each list entry contributes its low 8 bits. -/
def leNat : List Nat → Nat
  | [] => 0
  | b :: bs => b % 256 + 256 * leNat bs

/-- Modelled from the spec: the two little-endian bytes of a 16-bit value. -/
def u16Bytes (v : Nat) : List Nat := [v % 256, v / 256 % 256]

/-- Modelled from the spec: the four little-endian bytes of a 32-bit value. -/
def u32Bytes (v : Nat) : List Nat :=
  [v % 256, v / 256 % 256, v / 65536 % 256, v / 16777216 % 256]

@[simp] theorem length_u16Bytes (v : Nat) : (u16Bytes v).length = 2 := rfl

@[simp] theorem length_u32Bytes (v : Nat) : (u32Bytes v).length = 4 := rfl

@[simp] theorem leNat_u16Bytes (v : Nat) : leNat (u16Bytes v) = v % 65536 := by
  simp only [leNat, u16Bytes]
  omega

@[simp] theorem leNat_u32Bytes (v : Nat) : leNat (u32Bytes v) = v % 4294967296 := by
  simp only [leNat, u32Bytes]
  omega

/-- Reinterpret a decoded 32-bit value as a signed `i32`
(two's complement). -/
def asI32 (v : Nat) : Int :=
  if v % 4294967296 < 2147483648 then (v % 4294967296 : Nat)
  else (v % 4294967296 : Nat) - 4294967296

/-- Reinterpret a byte as a signed `i8` (two's complement). -/
def asI8 (v : Nat) : Int :=
  if v % 256 < 128 then (v % 256 : Nat) else (v % 256 : Nat) - 256

/-- The single byte of the two's-complement encoding of an `i8` value. -/
def i8Byte (c : Int) : Nat := (c % 256).toNat

theorem asI8_i8Byte (c : Int) (h1 : -128 ≤ c) (h2 : c ≤ 127) :
    asI8 (i8Byte c) = c := by
  simp only [asI8, i8Byte]
  omega

theorem i8Byte_lt (c : Int) : i8Byte c < 256 := by
  simp only [i8Byte]; omega

theorem i8Byte_eq_zero_iff (c : Int) (h1 : -128 ≤ c) (h2 : c ≤ 127) :
    i8Byte c = 0 ↔ c = 0 := by
  simp only [i8Byte]
  omega

/-- The `f32` bit patterns that compare equal to `0.0f32` under Rust's
`==` (IEEE-754 equality): exactly `+0.0` and `-0.0`. This is the only
floating-point operation the code performs (`push_slot`'s default check). -/
def f32IsZero (bits : Nat) : Bool := bits = 0 || bits = 2147483648

/-! ## Raw buffer reads -/

/-- Modelled from the spec: the (at most) `n` bytes of `buf` starting at
position `p`. -/
def readBytes (buf : List Nat) (p n : Nat) : List Nat := (buf.drop p).take n

/-- Modelled from the spec: unchecked little-endian read of `n` bytes at
position `p`, as performed by the accessors after verification. Reads
past the end of the buffer see no bytes (the Rust code's unchecked reads
would be undefined behavior there; the verifier rules such reads out). -/
def readLEU (buf : List Nat) (p n : Nat) : Nat := leNat (readBytes buf p n)

/-- Modelled from the spec: bounds-checked little-endian read, as performed
by the verifier; `none` when the requested range is not fully in-buffer. -/
def readLE (buf : List Nat) (p n : Nat) : Option Nat :=
  if p + n ≤ buf.length then some (readLEU buf p n) else none

theorem readBytes_append_right (a b : List Nat) (p n : Nat) (h : a.length ≤ p) :
    readBytes (a ++ b) p n = readBytes b (p - a.length) n := by
  have hp : p = a.length + (p - a.length) := by omega
  rw [readBytes, hp, List.drop_append, readBytes, Nat.add_sub_cancel_left]

theorem readBytes_append_left (a b : List Nat) (p n : Nat) (h : p + n ≤ a.length) :
    readBytes (a ++ b) p n = readBytes a p n := by
  rw [readBytes, List.drop_append_of_le_length (by omega), readBytes,
    List.take_append_of_le_length (by simp; omega)]

theorem readLEU_append_right (a b : List Nat) (p n : Nat) (h : a.length ≤ p) :
    readLEU (a ++ b) p n = readLEU b (p - a.length) n := by
  rw [readLEU, readBytes_append_right a b p n h, readLEU]

theorem readLEU_append_left (a b : List Nat) (p n : Nat) (h : p + n ≤ a.length) :
    readLEU (a ++ b) p n = readLEU a p n := by
  rw [readLEU, readBytes_append_left a b p n h, readLEU]

@[simp] theorem readBytes_zero_of_full (a : List Nat) (n : Nat) (h : a.length = n) :
    readBytes a 0 n = a := by
  simp [readBytes, ← h]

theorem readBytes_take (buf : List Nat) (m p n : Nat) (h : p + n ≤ m) :
    readBytes (buf.take m) p n = readBytes buf p n := by
  simp only [readBytes, List.drop_take]
  rw [List.take_take, Nat.min_eq_left (by omega)]

theorem readLEU_take (buf : List Nat) (m p n : Nat) (h : p + n ≤ m) :
    readLEU (buf.take m) p n = readLEU buf p n := by
  rw [readLEU, readBytes_take buf m p n h, readLEU]

/-! ## `ColliderType` (from `collider_component_generated.rs`) -/

/-- The `ColliderType` enum: a transparent wrapper over an `i8` wire value.
The closed set of declared variants is `Box = 0`, `Sphere = 1`,
`Capsule = 2`, `Mesh = 3`, but any `i8` value is representable. -/
structure ColliderType where
  v : Int
  deriving DecidableEq

def ColliderType.Box : ColliderType := ⟨0⟩

def ColliderType.Sphere : ColliderType := ⟨1⟩

def ColliderType.Capsule : ColliderType := ⟨2⟩

def ColliderType.Mesh : ColliderType := ⟨3⟩

/-- `ColliderType::variant_name`: the symbolic name for the four declared
variants, `none` for every other wire value. -/
def ColliderType.variant_name (c : ColliderType) : Option String :=
  if c = ColliderType.Box then some "Box"
  else if c = ColliderType.Sphere then some "Sphere"
  else if c = ColliderType.Capsule then some "Capsule"
  else if c = ColliderType.Mesh then some "Mesh"
  else none

/-- `<ColliderType as Follow>::follow`: read one byte at `loc` and wrap it,
with no validation whatsoever. -/
def ColliderType.follow (buf : List Nat) (loc : Nat) : ColliderType :=
  ⟨asI8 (readLEU buf loc 1)⟩

/-! ## `Vec3` -/

/-- Modelled from the spec: `Vec3`, the optional 3-vector field's type,
lives in the missing companion file `common_types_generated.rs`. Per the
spec's data model and the `&Vec3` inline usage in the visible file it is a
fixed-size struct of three `f32` components stored as 12 consecutive
little-endian bytes. Components are modelled as 32-bit patterns. -/
structure Vec3 where
  x : Nat
  y : Nat
  z : Nat
  deriving DecidableEq

/-- Modelled from the spec: the 12 inline bytes of a `Vec3`. -/
def vec3Bytes (v : Vec3) : List Nat := u32Bytes v.x ++ u32Bytes v.y ++ u32Bytes v.z

@[simp] theorem length_vec3Bytes (v : Vec3) : (vec3Bytes v).length = 12 := rfl

/-- Modelled from the spec: `<Vec3 as Follow>::follow`, the in-place
zero-copy read of the three components. -/
def vec3Follow (buf : List Nat) (p : Nat) : Vec3 :=
  ⟨readLEU buf p 4, readLEU buf (p + 4) 4, readLEU buf (p + 8) 4⟩

/-! ## Buffer builder

Modelled from the spec: the `FlatBufferBuilder` is an append-only,
backward-growing byte arena. `owned` holds, in final order, the bytes
written so far — they form the tail of the finished buffer, so pushing
prepends. A position is tracked as its distance `rev` from the buffer's
end (`rev = owned.length` right after the push), which is stable under
later pushes; the absolute position in the finished buffer `B` is
`B.length - rev`. -/

structure FlatBufferBuilder where
  owned : List Nat
  fieldLocs : List (Nat × Nat)
  tableStart : Nat

/-- Modelled from the spec: append bytes at the front of the arena. -/
def FlatBufferBuilder.push (b : FlatBufferBuilder) (bs : List Nat) : FlatBufferBuilder :=
  { b with owned := bs ++ b.owned }

/-- Modelled from the spec: `push_slot_always` — push the field's inline
bytes and record the slot's location for the forthcoming vtable. -/
def pushSlotBytes (b : FlatBufferBuilder) (voff : Nat) (bs : List Nat) : FlatBufferBuilder :=
  { owned := bs ++ b.owned
    fieldLocs := (voff, (bs ++ b.owned).length) :: b.fieldLocs
    tableStart := b.tableStart }

/-- Modelled from the spec: `create_string` — push `[4-byte LE length]
[bytes][NUL]` and return the string's arena position (as a `rev`
distance from the buffer end, the builder's stable notion of offset). -/
def createString (b : FlatBufferBuilder) (s : List Nat) : FlatBufferBuilder × Nat :=
  let b1 := (b.push [0]).push s
  let b2 := b1.push (u32Bytes s.length)
  (b2, b2.owned.length)

/-- Modelled from the spec: `start_table` — open a table context, resetting
the tracked slots and remembering the arena cursor. -/
def startTable (b : FlatBufferBuilder) : FlatBufferBuilder :=
  { b with fieldLocs := [], tableStart := b.owned.length }

/-! The seven `ColliderComponentDataBuilder::add_*` methods, from the
generated file. Scalar fields go through `push_slot(slot, value, default)`,
which writes nothing when `value == default`; `size`, `material_name` and
`mesh_path` go through `push_slot_always`. The vtable slots are
`VT_COLLIDER_TYPE = 4`, `VT_IS_TRIGGER = 6`, `VT_SIZE = 8`,
`VT_RADIUS = 10`, `VT_HEIGHT = 12`, `VT_MATERIAL_NAME = 14`,
`VT_MESH_PATH = 16`. -/

/-- `add_collider_type`: `push_slot::<ColliderType>(4, c, Box)`; `Box` has
wire value `0`. -/
def add_collider_type (b : FlatBufferBuilder) (c : Int) : FlatBufferBuilder :=
  if c = 0 then b else pushSlotBytes b 4 [i8Byte c]

/-- `add_is_trigger`: `push_slot::<bool>(6, t, false)`; `true` is the byte
`1`. -/
def add_is_trigger (b : FlatBufferBuilder) (t : Bool) : FlatBufferBuilder :=
  if t then pushSlotBytes b 6 [1] else b

/-- `add_size`: `push_slot_always::<&Vec3>(8, v)` — the 12 struct bytes are
emplaced inline, with no forward offset. -/
def add_size (b : FlatBufferBuilder) (v : Vec3) : FlatBufferBuilder :=
  pushSlotBytes b 8 (vec3Bytes v)

/-- `add_radius`: `push_slot::<f32>(10, r, 0.0)`; the default comparison is
IEEE-754 `==` against `0.0`. -/
def add_radius (b : FlatBufferBuilder) (r : Nat) : FlatBufferBuilder :=
  if f32IsZero r then b else pushSlotBytes b 10 (u32Bytes r)

/-- `add_height`: `push_slot::<f32>(12, h, 0.0)`. -/
def add_height (b : FlatBufferBuilder) (h : Nat) : FlatBufferBuilder :=
  if f32IsZero h then b else pushSlotBytes b 12 (u32Bytes h)

/-- `add_material_name`: `push_slot_always::<WIPOffset<&str>>(14, w)` — a
4-byte forward offset to the already-created string; its value is the
distance from the field to the string, `(rev of field) - (rev of string)`. -/
def add_material_name (b : FlatBufferBuilder) (w : Nat) : FlatBufferBuilder :=
  pushSlotBytes b 14 (u32Bytes (b.owned.length + 4 - w))

/-- `add_mesh_path`: `push_slot_always::<WIPOffset<&str>>(16, w)`. -/
def add_mesh_path (b : FlatBufferBuilder) (w : Nat) : FlatBufferBuilder :=
  pushSlotBytes b 16 (u32Bytes (b.owned.length + 4 - w))

/-- Modelled from the spec: the vtable entry for slot `voff` — the
table-relative offset of the recorded field location, `0` when the slot
was never written. -/
def slotEntry (locs : List (Nat × Nat)) (revTable voff : Nat) : Nat :=
  match List.lookup voff locs with
  | some r => revTable - r
  | none => 0

/-- Modelled from the spec: `end_table`, with the vtable covering the seven
declared slots followed by `extra` additional trailing slot entries
(`extra = []` for this schema's own writer; a non-empty `extra` models a
newer-schema writer, per the spec's forward-compatibility scenario). The
production library additionally trims trailing absent slots and
deduplicates identical vtables, neither of which any claim observes.
Emits `[u16 vtable length][u16 table length][u16 entries...]`, then the
table's 4-byte backward soffset to it, and returns the table's `rev`
position. -/
def endTableWith (b : FlatBufferBuilder) (extra : List Nat) : FlatBufferBuilder × Nat :=
  let vtLen := 18 + 2 * extra.length
  let revTable := b.owned.length + 4
  let tableLen := revTable - b.tableStart
  let vtb := u16Bytes vtLen ++ u16Bytes tableLen ++
    u16Bytes (slotEntry b.fieldLocs revTable 4) ++
    u16Bytes (slotEntry b.fieldLocs revTable 6) ++
    u16Bytes (slotEntry b.fieldLocs revTable 8) ++
    u16Bytes (slotEntry b.fieldLocs revTable 10) ++
    u16Bytes (slotEntry b.fieldLocs revTable 12) ++
    u16Bytes (slotEntry b.fieldLocs revTable 14) ++
    u16Bytes (slotEntry b.fieldLocs revTable 16) ++
    (extra.map u16Bytes).flatten
  ((b.push (u32Bytes vtLen)).push vtb, revTable)

/-- The file identifier `"CLDR"` (`COLLIDER_COMPONENT_DATA_IDENTIFIER`),
as its four ASCII bytes. -/
def cldrBytes : List Nat := [67, 76, 68, 82]

/-- Modelled from the spec: `FlatBufferBuilder::finish(root, ident)` —
push the 4-byte identifier, then the 4-byte LE root offset (the root
table's absolute position), sealing the buffer. -/
def finishBuffer (b : FlatBufferBuilder) (rootRev : Nat) (ident : List Nat) : List Nat :=
  let b1 := b.push ident
  u32Bytes (b1.owned.length + 4 - rootRev) ++ b1.owned

/-- `ColliderComponentDataArgs`: the argument record of
`ColliderComponentData::create`. Strings are byte lists; floats are bit
patterns. -/
structure ColliderComponentDataArgs where
  collider_type : Int
  is_trigger : Bool
  size : Option Vec3
  radius : Nat
  height : Nat
  material_name : Option (List Nat)
  mesh_path : Option (List Nat)

/-- The producer pipeline up to `builder.finish()`: create the argument
strings (as the caller of `create` must, before the table), then
`ColliderComponentData::create`'s body in its exact field order
(`mesh_path`, `material_name`, `height`, `radius`, `size`, `is_trigger`,
`collider_type`, each optional `add_*` guarded by the `Option` match from
the source). -/
def buildPre (args : ColliderComponentDataArgs) : FlatBufferBuilder :=
  let b0 : FlatBufferBuilder := ⟨[], [], 0⟩
  let pm : FlatBufferBuilder × Option Nat :=
    match args.material_name with
    | some s => let r := createString b0 s; (r.1, some r.2)
    | none => (b0, none)
  let pp : FlatBufferBuilder × Option Nat :=
    match args.mesh_path with
    | some s => let r := createString pm.1 s; (r.1, some r.2)
    | none => (pm.1, none)
  let b3 := startTable pp.1
  let b4 := match pp.2 with
    | some w => add_mesh_path b3 w
    | none => b3
  let b5 := match pm.2 with
    | some w => add_material_name b4 w
    | none => b4
  let b6 := add_height b5 args.height
  let b7 := add_radius b6 args.radius
  let b8 := match args.size with
    | some v => add_size b7 v
    | none => b7
  let b9 := add_is_trigger b8 args.is_trigger
  add_collider_type b9 args.collider_type

/-- The full producer pipeline: the builds above, then `end_table`, then
`finish_collider_component_data_buffer`, which finishes with the `"CLDR"`
identifier. `extra` is passed through to `endTableWith`. -/
def buildWith (args : ColliderComponentDataArgs) (extra : List Nat) : List Nat :=
  let fin := endTableWith (buildPre args) extra
  finishBuffer fin.1 fin.2 cldrBytes

/-- Build with this schema's own writer: no extra vtable slots. -/
def buildColliderComponentDataBuffer (args : ColliderComponentDataArgs) : List Nat :=
  buildWith args []

/-! ## Table reader and accessors -/

/-- The `ColliderComponentData` view: a borrowed buffer plus the table's
absolute position (the `flatbuffers::Table` inside the generated struct). -/
structure ColliderComponentData where
  buf : List Nat
  loc : Nat
  deriving DecidableEq

/-- Modelled from the spec: dereference the table's 4-byte backward soffset
to locate its vtable (unchecked, as in `Table::get`). -/
def tableVtU (buf : List Nat) (pos : Nat) : Nat :=
  ((pos : Int) - asI32 (readLEU buf pos 4)).toNat

/-- Modelled from the spec: the vtable entry for slot `voff` — `0`
(absent) when the slot lies beyond the vtable's recorded length,
otherwise the stored 2-byte table-relative offset. -/
def fieldEntryU (buf : List Nat) (pos voff : Nat) : Nat :=
  let vt := tableVtU buf pos
  let vtLen := readLEU buf vt 2
  if voff + 2 ≤ vtLen then readLEU buf (vt + voff) 2 else 0

/-- Modelled from the spec: `Table::get::<scalar>(voff, default)` — the
declared default when the slot is absent, otherwise `Some` of the `n`-byte
inline value. This is the `Option` that the generated scalar accessors
`unwrap`. -/
def tableGetScalarU (buf : List Nat) (pos voff n : Nat) (dflt : Option Nat) : Option Nat :=
  let e := fieldEntryU buf pos voff
  if e = 0 then dflt else some (readLEU buf (pos + e) n)

/-- Accessor `collider_type()`: `get::<ColliderType>(4, Some(Box)).unwrap()`,
as the `i8` wire value (default `Box = 0`). -/
def ColliderComponentData.collider_type (d : ColliderComponentData) : Int :=
  asI8 ((tableGetScalarU d.buf d.loc 4 1 (some 0)).getD 0)

/-- Accessor `is_trigger()`: `get::<bool>(6, Some(false)).unwrap()`; a
stored byte is `true` iff nonzero. -/
def ColliderComponentData.is_trigger (d : ColliderComponentData) : Bool :=
  (tableGetScalarU d.buf d.loc 6 1 (some 0)).getD 0 != 0

/-- Accessor `size()`: `get::<Vec3>(8, None)` — `None` when absent, else a
zero-copy in-place read of the 12 inline struct bytes. -/
def ColliderComponentData.size (d : ColliderComponentData) : Option Vec3 :=
  let e := fieldEntryU d.buf d.loc 8
  if e = 0 then none else some (vec3Follow d.buf (d.loc + e))

/-- Accessor `radius()`: `get::<f32>(10, Some(0.0)).unwrap()`, as a 32-bit
pattern. -/
def ColliderComponentData.radius (d : ColliderComponentData) : Nat :=
  (tableGetScalarU d.buf d.loc 10 4 (some 0)).getD 0

/-- Accessor `height()`: `get::<f32>(12, Some(0.0)).unwrap()`. -/
def ColliderComponentData.height (d : ColliderComponentData) : Nat :=
  (tableGetScalarU d.buf d.loc 12 4 (some 0)).getD 0

/-- Accessor `material_name()`: `get::<ForwardsUOffset<&str>>(14, None)` —
`None` when absent, else follow the 4-byte forward offset and read the
length-prefixed string bytes. -/
def ColliderComponentData.material_name (d : ColliderComponentData) : Option (List Nat) :=
  let e := fieldEntryU d.buf d.loc 14
  if e = 0 then none
  else
    let fp := d.loc + e
    let sp := fp + readLEU d.buf fp 4
    some (readBytes d.buf (sp + 4) (readLEU d.buf sp 4))

/-- Accessor `mesh_path()`: `get::<ForwardsUOffset<&str>>(16, None)`. -/
def ColliderComponentData.mesh_path (d : ColliderComponentData) : Option (List Nat) :=
  let e := fieldEntryU d.buf d.loc 16
  if e = 0 then none
  else
    let fp := d.loc + e
    let sp := fp + readLEU d.buf fp 4
    some (readBytes d.buf (sp + 4) (readLEU d.buf sp 4))

/-! ## Verifier -/

/-- Modelled from the spec: the verifier's failure reasons — a specific
reason value, not a generic fault. -/
inductive InvalidFlatbuffer where
  | rangeOutOfBounds (p : Nat)
  | signedOffsetOutOfBounds
  | vtableTooShort
  | missingNullTerminator (p : Nat)
  deriving DecidableEq

/-- The in-bounds-violation reasons among the verifier's failure reasons. -/
def isBoundsViolation : InvalidFlatbuffer → Bool
  | .rangeOutOfBounds _ => true
  | .signedOffsetOutOfBounds => true
  | _ => false

/-- Modelled from the spec: a bounds-checked read as the verifier performs
it, failing with an in-bounds-violation reason. -/
def checkRead (buf : List Nat) (p n : Nat) : Except InvalidFlatbuffer Nat :=
  if p + n ≤ buf.length then .ok (readLEU buf p n) else .error (.rangeOutOfBounds p)

/-- Modelled from the spec: `Verifier::visit_table` — check the table's
soffset, locate the vtable, check the vtable's own length field and that
the whole vtable lies in-buffer; returns the vtable position and length. -/
def visit_table (buf : List Nat) (pos : Nat) : Except InvalidFlatbuffer (Nat × Nat) := do
  let s ← checkRead buf pos 4
  let vtI : Int := (pos : Int) - asI32 s
  if vtI < 0 then .error .signedOffsetOutOfBounds
  else
    let vt := vtI.toNat
    let vtLen ← checkRead buf vt 2
    if vtLen < 4 then .error .vtableTooShort
    else if vt + vtLen ≤ buf.length then .ok (vt, vtLen)
    else .error (.rangeOutOfBounds vt)

/-- Modelled from the spec: `visit_field::<scalar>` (also covers the inline
`Vec3` struct, whose verification is a 12-byte range check): an absent
slot is fine (no field here is `required`); a present one must have its
`n` value bytes in-buffer. -/
def visit_scalar_field (buf : List Nat) (pos vt vtLen voff n : Nat) :
    Except InvalidFlatbuffer Unit :=
  if voff + 2 ≤ vtLen then
    let e := readLEU buf (vt + voff) 2
    if e = 0 then .ok ()
    else if pos + e + n ≤ buf.length then .ok ()
    else .error (.rangeOutOfBounds (pos + e))
  else .ok ()

/-- Modelled from the spec: `visit_field::<ForwardsUOffset<&str>>`: an
absent slot is fine; a present one must hold an in-buffer 4-byte forward
offset to an in-buffer length-prefixed, NUL-terminated string. (The spec
declares this layer UTF-8-agnostic, so no UTF-8 check.) -/
def visit_string_field (buf : List Nat) (pos vt vtLen voff : Nat) :
    Except InvalidFlatbuffer Unit :=
  if voff + 2 ≤ vtLen then
    let e := readLEU buf (vt + voff) 2
    if e = 0 then .ok ()
    else do
      let off ← checkRead buf (pos + e) 4
      let sp := pos + e + off
      let sl ← checkRead buf sp 4
      if sp + 4 + sl + 1 ≤ buf.length then
        if readLEU buf (sp + 4 + sl) 1 = 0 then .ok ()
        else .error (.missingNullTerminator sp)
      else .error (.rangeOutOfBounds sp)
  else .ok ()

/-- `ColliderComponentData::run_verifier`: visit the table, then its seven
declared fields in the generated order, none of them `required`. -/
def run_verifier (buf : List Nat) (pos : Nat) : Except InvalidFlatbuffer Unit := do
  let tv ← visit_table buf pos
  visit_scalar_field buf pos tv.1 tv.2 4 1
  visit_scalar_field buf pos tv.1 tv.2 6 1
  visit_scalar_field buf pos tv.1 tv.2 8 12
  visit_scalar_field buf pos tv.1 tv.2 10 4
  visit_scalar_field buf pos tv.1 tv.2 12 4
  visit_string_field buf pos tv.1 tv.2 14
  visit_string_field buf pos tv.1 tv.2 16

/-- `root_as_collider_component_data`: read the root offset, run the
verifier on the root table, and return the typed view on success. -/
def root_as_collider_component_data (buf : List Nat) :
    Except InvalidFlatbuffer ColliderComponentData := do
  let u ← checkRead buf 0 4
  run_verifier buf u
  pure ⟨buf, u⟩

/-- `collider_component_data_buffer_has_identifier`: the four bytes at
offset 4 (right after the root offset) equal `"CLDR"`. -/
def collider_component_data_buffer_has_identifier (buf : List Nat) : Bool :=
  decide (8 ≤ buf.length) && decide (readBytes buf 4 4 = cldrBytes)

/-! ## Derived layout description

The following definitions are proof support only: they give closed forms
for the byte segments the builder emits, and are related to the builder by
the lemmas below. -/

/-- One byte segment per field, empty when the field is omitted. -/
def ctSeg (c : Int) : List Nat := if c = 0 then [] else [i8Byte c]

def trSeg (t : Bool) : List Nat := if t then [1] else []

def szSeg : Option Vec3 → List Nat
  | some v => vec3Bytes v
  | none => []

def rdSeg (r : Nat) : List Nat := if f32IsZero r then [] else u32Bytes r

def htSeg (h : Nat) : List Nat := if f32IsZero h then [] else u32Bytes h

/-- The arena bytes of one created string: `[len][bytes][NUL]`. -/
def strSeg (s : List Nat) : List Nat := u32Bytes s.length ++ s ++ [0]

def optStrSeg : Option (List Nat) → List Nat
  | some s => strSeg s
  | none => []

/-- The 4-byte forward-offset segment for `mesh_path` (the string sits
directly after the field, so the offset is 4). -/
def poSeg : Option (List Nat) → List Nat
  | some _ => u32Bytes 4
  | none => []

/-- The 4-byte forward-offset segment for `material_name` (the offset
skips the `mesh_path` offset field and string when present). -/
def moSeg (mat mesh : Option (List Nat)) : List Nat :=
  match mat with
  | some _ => u32Bytes (4 + (poSeg mesh).length + (optStrSeg mesh).length)
  | none => []

/-- The recorded slot location for each written field, empty when
omitted; `L` is the arena size underneath the field's segment. -/
def ctLoc (c : Int) (L : Nat) : List (Nat × Nat) := if c = 0 then [] else [(4, L + 1)]

def trLoc (t : Bool) (L : Nat) : List (Nat × Nat) := if t then [(6, L + 1)] else []

def szLoc : Option Vec3 → Nat → List (Nat × Nat)
  | some _, L => [(8, L + 12)]
  | none, _ => []

def rdLoc (r : Nat) (L : Nat) : List (Nat × Nat) :=
  if f32IsZero r then [] else [(10, L + 4)]

def htLoc (h : Nat) (L : Nat) : List (Nat × Nat) :=
  if f32IsZero h then [] else [(12, L + 4)]

def moLoc (mat : Option (List Nat)) (L : Nat) : List (Nat × Nat) :=
  match mat with
  | some _ => [(14, L + 4)]
  | none => []

def poLoc (mesh : Option (List Nat)) (L : Nat) : List (Nat × Nat) :=
  match mesh with
  | some _ => [(16, L + 4)]
  | none => []

/-! Stage lemmas: the effect of each `add_*` on the builder state. -/

theorem add_collider_type_eq (b : FlatBufferBuilder) (c : Int) :
    add_collider_type b c =
      ⟨ctSeg c ++ b.owned, ctLoc c b.owned.length ++ b.fieldLocs, b.tableStart⟩ := by
  by_cases hc : c = 0 <;>
    simp [add_collider_type, ctSeg, ctLoc, pushSlotBytes, hc]

theorem add_is_trigger_eq (b : FlatBufferBuilder) (t : Bool) :
    add_is_trigger b t =
      ⟨trSeg t ++ b.owned, trLoc t b.owned.length ++ b.fieldLocs, b.tableStart⟩ := by
  cases t <;> simp [add_is_trigger, trSeg, trLoc, pushSlotBytes]

theorem add_size_opt_eq (b : FlatBufferBuilder) (o : Option Vec3) :
    (match o with
      | some v => add_size b v
      | none => b) =
      ⟨szSeg o ++ b.owned, szLoc o b.owned.length ++ b.fieldLocs, b.tableStart⟩ := by
  cases o <;> simp [add_size, szSeg, szLoc, pushSlotBytes, Nat.add_comm]

theorem add_radius_eq (b : FlatBufferBuilder) (r : Nat) :
    add_radius b r =
      ⟨rdSeg r ++ b.owned, rdLoc r b.owned.length ++ b.fieldLocs, b.tableStart⟩ := by
  by_cases hr : f32IsZero r <;>
    simp [add_radius, rdSeg, rdLoc, pushSlotBytes, hr, Nat.add_comm]

theorem add_height_eq (b : FlatBufferBuilder) (h : Nat) :
    add_height b h =
      ⟨htSeg h ++ b.owned, htLoc h b.owned.length ++ b.fieldLocs, b.tableStart⟩ := by
  by_cases hh : f32IsZero h <;>
    simp [add_height, htSeg, htLoc, pushSlotBytes, hh, Nat.add_comm]

/-! Composed closed forms for the whole pre-`end_table` builder state. -/

/-- The inline field bytes of the table, in buffer order. -/
def scalarSegs (ct : Int) (tr : Bool) (sz : Option Vec3) (rd ht : Nat) : List Nat :=
  ctSeg ct ++ trSeg tr ++ szSeg sz ++ rdSeg rd ++ htSeg ht

/-- The slot locations recorded for the five fields written by the scalar
`add_*` chain, on top of an arena of size `L`. -/
def scalarLocs (ct : Int) (tr : Bool) (sz : Option Vec3) (rd ht L : Nat) :
    List (Nat × Nat) :=
  ctLoc ct
      (L + (htSeg ht).length + (rdSeg rd).length + (szSeg sz).length +
        (trSeg tr).length) ++
    trLoc tr (L + (htSeg ht).length + (rdSeg rd).length + (szSeg sz).length) ++
    szLoc sz (L + (htSeg ht).length + (rdSeg rd).length) ++
    rdLoc rd (L + (htSeg ht).length) ++
    htLoc ht L

theorem addScalars_eq (b : FlatBufferBuilder) (ct : Int) (tr : Bool)
    (sz : Option Vec3) (rd ht : Nat) :
    add_collider_type
      (add_is_trigger
        (match sz with
          | some v => add_size (add_radius (add_height b ht) rd) v
          | none => add_radius (add_height b ht) rd)
        tr)
      ct =
      ⟨scalarSegs ct tr sz rd ht ++ b.owned,
        scalarLocs ct tr sz rd ht b.owned.length ++ b.fieldLocs, b.tableStart⟩ := by
  rw [add_height_eq, add_radius_eq, add_size_opt_eq, add_is_trigger_eq,
    add_collider_type_eq]
  simp [scalarSegs, scalarLocs, Nat.add_assoc, Nat.add_comm, Nat.add_left_comm]

/-- The combined string-arena length underneath the table. -/
def strBase (args : ColliderComponentDataArgs) : Nat :=
  (optStrSeg args.mesh_path).length + (optStrSeg args.material_name).length

/-- The arena size underneath the table's inline scalar fields. -/
def preBase (args : ColliderComponentDataArgs) : Nat :=
  (moSeg args.material_name args.mesh_path).length + (poSeg args.mesh_path).length +
    strBase args

/-- The whole arena before `end_table`, in buffer order. -/
def preOwned (args : ColliderComponentDataArgs) : List Nat :=
  scalarSegs args.collider_type args.is_trigger args.size args.radius args.height ++
    moSeg args.material_name args.mesh_path ++ poSeg args.mesh_path ++
    optStrSeg args.mesh_path ++ optStrSeg args.material_name

/-- All slot locations recorded before `end_table`. -/
def preLocs (args : ColliderComponentDataArgs) : List (Nat × Nat) :=
  scalarLocs args.collider_type args.is_trigger args.size args.radius args.height
      (preBase args) ++
    moLoc args.material_name ((poSeg args.mesh_path).length + strBase args) ++
    poLoc args.mesh_path (strBase args)

theorem buildPre_eq (args : ColliderComponentDataArgs) :
    buildPre args = ⟨preOwned args, preLocs args, strBase args⟩ := by
  obtain ⟨ct, tr, sz, rd, ht, mat, mesh⟩ := args
  cases mat <;> cases mesh <;>
    first
      | (rw [buildPre]
         simp only []
         rw [addScalars_eq]
         simp [createString, startTable, FlatBufferBuilder.push, add_mesh_path,
           add_material_name, pushSlotBytes, preOwned, preLocs, preBase, strBase,
           optStrSeg, strSeg, moSeg, poSeg, moLoc, poLoc, scalarLocs,
           Nat.add_assoc, Nat.add_comm, Nat.add_left_comm]
         done)
      | (rw [buildPre]
         simp only []
         rw [addScalars_eq]
         simp [createString, startTable, FlatBufferBuilder.push, add_mesh_path,
           add_material_name, pushSlotBytes, preOwned, preLocs, preBase, strBase,
           optStrSeg, strSeg, moSeg, poSeg, moLoc, poLoc, scalarLocs,
           Nat.add_assoc, Nat.add_comm, Nat.add_left_comm]
         congr 1
         · congr 1
           omega
         · congr 1
           congr 1
           omega)

/-! Lookup values of the recorded slot locations. -/

theorem beq_false_of_ne {k m : Nat} (h : ¬k = m) : (k == m) = false :=
  beq_eq_false_iff_ne.mpr h

theorem lookup_ctLoc (k : Nat) (c : Int) (L : Nat) :
    List.lookup k (ctLoc c L) = if k = 4 ∧ ¬c = 0 then some (L + 1) else none := by
  by_cases hc : c = 0 <;> by_cases hk : k = 4 <;>
    simp [ctLoc, hc, hk, List.lookup, beq_false_of_ne]

theorem lookup_trLoc (k : Nat) (t : Bool) (L : Nat) :
    List.lookup k (trLoc t L) = if k = 6 ∧ t then some (L + 1) else none := by
  cases t <;> by_cases hk : k = 6 <;> simp [trLoc, hk, List.lookup, beq_false_of_ne]

theorem lookup_szLoc (k : Nat) (o : Option Vec3) (L : Nat) :
    List.lookup k (szLoc o L) = if k = 8 ∧ o.isSome then some (L + 12) else none := by
  cases o <;> by_cases hk : k = 8 <;> simp [szLoc, hk, List.lookup, beq_false_of_ne]

theorem lookup_rdLoc (k : Nat) (r L : Nat) :
    List.lookup k (rdLoc r L) =
      if k = 10 ∧ ¬f32IsZero r then some (L + 4) else none := by
  by_cases hr : f32IsZero r <;> by_cases hk : k = 10 <;>
    simp [rdLoc, hr, hk, List.lookup, beq_false_of_ne]

theorem lookup_htLoc (k : Nat) (h L : Nat) :
    List.lookup k (htLoc h L) =
      if k = 12 ∧ ¬f32IsZero h then some (L + 4) else none := by
  by_cases hh : f32IsZero h <;> by_cases hk : k = 12 <;>
    simp [htLoc, hh, hk, List.lookup, beq_false_of_ne]

theorem lookup_moLoc (k : Nat) (mat : Option (List Nat)) (L : Nat) :
    List.lookup k (moLoc mat L) = if k = 14 ∧ mat.isSome then some (L + 4) else none := by
  cases mat <;> by_cases hk : k = 14 <;> simp [moLoc, hk, List.lookup, beq_false_of_ne]

theorem lookup_poLoc (k : Nat) (mesh : Option (List Nat)) (L : Nat) :
    List.lookup k (poLoc mesh L) = if k = 16 ∧ mesh.isSome then some (L + 4) else none := by
  cases mesh <;> by_cases hk : k = 16 <;> simp [poLoc, hk, List.lookup, beq_false_of_ne]

/-! Closed forms for the seven vtable entries of a built table. -/

def e4v (args : ColliderComponentDataArgs) : Nat :=
  if args.collider_type = 0 then 0 else 4

def e6v (args : ColliderComponentDataArgs) : Nat :=
  if args.is_trigger then 4 + (ctSeg args.collider_type).length else 0

def e8v (args : ColliderComponentDataArgs) : Nat :=
  match args.size with
  | some _ => 4 + (ctSeg args.collider_type).length + (trSeg args.is_trigger).length
  | none => 0

def e10v (args : ColliderComponentDataArgs) : Nat :=
  if f32IsZero args.radius then 0
  else 4 + (ctSeg args.collider_type).length + (trSeg args.is_trigger).length +
    (szSeg args.size).length

def e12v (args : ColliderComponentDataArgs) : Nat :=
  if f32IsZero args.height then 0
  else 4 + (ctSeg args.collider_type).length + (trSeg args.is_trigger).length +
    (szSeg args.size).length + (rdSeg args.radius).length

def e14v (args : ColliderComponentDataArgs) : Nat :=
  match args.material_name with
  | some _ => 4 +
      (scalarSegs args.collider_type args.is_trigger args.size args.radius
        args.height).length
  | none => 0

def e16v (args : ColliderComponentDataArgs) : Nat :=
  match args.mesh_path with
  | some _ => 4 +
      (scalarSegs args.collider_type args.is_trigger args.size args.radius
          args.height).length +
      (moSeg args.material_name args.mesh_path).length
  | none => 0

/-- The table's recorded byte length (soffset plus inline fields). -/
def tableLenV (args : ColliderComponentDataArgs) : Nat :=
  (scalarSegs args.collider_type args.is_trigger args.size args.radius
      args.height).length +
    (moSeg args.material_name args.mesh_path).length + (poSeg args.mesh_path).length + 4

theorem entry4_pre (args : ColliderComponentDataArgs) :
    slotEntry (preLocs args) ((preOwned args).length + 4) 4 = e4v args := by
  obtain ⟨ct, tr, sz, rd, ht, mat, mesh⟩ := args
  by_cases hc : ct = 0 <;>
    simp [slotEntry, preLocs, scalarLocs, List.append_assoc, List.lookup_append,
      lookup_ctLoc, lookup_trLoc, lookup_szLoc, lookup_rdLoc, lookup_htLoc,
      lookup_moLoc, lookup_poLoc, hc, e4v, preOwned, preBase, strBase, scalarSegs]
  have h1 : (ctSeg ct).length = 1 := by simp [ctSeg, hc]
  omega

theorem entry6_pre (args : ColliderComponentDataArgs) :
    slotEntry (preLocs args) ((preOwned args).length + 4) 6 = e6v args := by
  obtain ⟨ct, tr, sz, rd, ht, mat, mesh⟩ := args
  cases tr <;>
    simp [slotEntry, preLocs, scalarLocs, List.append_assoc, List.lookup_append,
      lookup_ctLoc, lookup_trLoc, lookup_szLoc, lookup_rdLoc, lookup_htLoc,
      lookup_moLoc, lookup_poLoc, e6v, preOwned, preBase, strBase, scalarSegs]
  have h1 : (trSeg true).length = 1 := by simp [trSeg]
  omega

theorem entry8_pre (args : ColliderComponentDataArgs) :
    slotEntry (preLocs args) ((preOwned args).length + 4) 8 = e8v args := by
  obtain ⟨ct, tr, sz, rd, ht, mat, mesh⟩ := args
  cases sz with
  | none =>
    simp [slotEntry, preLocs, scalarLocs, List.append_assoc, List.lookup_append,
      lookup_ctLoc, lookup_trLoc, lookup_szLoc, lookup_rdLoc, lookup_htLoc,
      lookup_moLoc, lookup_poLoc, e8v]
  | some v =>
    simp [slotEntry, preLocs, scalarLocs, List.append_assoc, List.lookup_append,
      lookup_ctLoc, lookup_trLoc, lookup_szLoc, lookup_rdLoc, lookup_htLoc,
      lookup_moLoc, lookup_poLoc, e8v, preOwned, preBase, strBase, scalarSegs]
    have h1 : (szSeg (some v)).length = 12 := by simp [szSeg]
    omega

theorem entry10_pre (args : ColliderComponentDataArgs) :
    slotEntry (preLocs args) ((preOwned args).length + 4) 10 = e10v args := by
  obtain ⟨ct, tr, sz, rd, ht, mat, mesh⟩ := args
  by_cases hr : f32IsZero rd <;>
    simp [slotEntry, preLocs, scalarLocs, List.append_assoc, List.lookup_append,
      lookup_ctLoc, lookup_trLoc, lookup_szLoc, lookup_rdLoc, lookup_htLoc,
      lookup_moLoc, lookup_poLoc, hr, e10v, preOwned, preBase, strBase, scalarSegs]
  have h1 : (rdSeg rd).length = 4 := by simp [rdSeg, hr]
  omega

theorem entry12_pre (args : ColliderComponentDataArgs) :
    slotEntry (preLocs args) ((preOwned args).length + 4) 12 = e12v args := by
  obtain ⟨ct, tr, sz, rd, ht, mat, mesh⟩ := args
  by_cases hh : f32IsZero ht <;>
    simp [slotEntry, preLocs, scalarLocs, List.append_assoc, List.lookup_append,
      lookup_ctLoc, lookup_trLoc, lookup_szLoc, lookup_rdLoc, lookup_htLoc,
      lookup_moLoc, lookup_poLoc, hh, e12v, preOwned, preBase, strBase, scalarSegs]
  have h1 : (htSeg ht).length = 4 := by simp [htSeg, hh]
  omega

theorem entry14_pre (args : ColliderComponentDataArgs) :
    slotEntry (preLocs args) ((preOwned args).length + 4) 14 = e14v args := by
  obtain ⟨ct, tr, sz, rd, ht, mat, mesh⟩ := args
  cases mat with
  | none =>
    simp [slotEntry, preLocs, scalarLocs, List.append_assoc, List.lookup_append,
      lookup_ctLoc, lookup_trLoc, lookup_szLoc, lookup_rdLoc, lookup_htLoc,
      lookup_moLoc, lookup_poLoc, e14v]
  | some s =>
    simp [slotEntry, preLocs, scalarLocs, List.append_assoc, List.lookup_append,
      lookup_ctLoc, lookup_trLoc, lookup_szLoc, lookup_rdLoc, lookup_htLoc,
      lookup_moLoc, lookup_poLoc, e14v, preOwned, preBase, strBase, scalarSegs]
    have h1 : (moSeg (some s) mesh).length = 4 := by simp [moSeg]
    omega

theorem entry16_pre (args : ColliderComponentDataArgs) :
    slotEntry (preLocs args) ((preOwned args).length + 4) 16 = e16v args := by
  obtain ⟨ct, tr, sz, rd, ht, mat, mesh⟩ := args
  cases mesh with
  | none =>
    simp [slotEntry, preLocs, scalarLocs, List.append_assoc, List.lookup_append,
      lookup_ctLoc, lookup_trLoc, lookup_szLoc, lookup_rdLoc, lookup_htLoc,
      lookup_moLoc, lookup_poLoc, e16v]
  | some s =>
    simp [slotEntry, preLocs, scalarLocs, List.append_assoc, List.lookup_append,
      lookup_ctLoc, lookup_trLoc, lookup_szLoc, lookup_rdLoc, lookup_htLoc,
      lookup_moLoc, lookup_poLoc, e16v, preOwned, preBase, strBase, scalarSegs]
    have h1 : (poSeg (some s)).length = 4 := by simp [poSeg]
    omega

/-- The vtable bytes of a built buffer. -/
def vtbSeg (args : ColliderComponentDataArgs) (extra : List Nat) : List Nat :=
  u16Bytes (18 + 2 * extra.length) ++ u16Bytes (tableLenV args) ++
    u16Bytes (e4v args) ++ u16Bytes (e6v args) ++ u16Bytes (e8v args) ++
    u16Bytes (e10v args) ++ u16Bytes (e12v args) ++ u16Bytes (e14v args) ++
    u16Bytes (e16v args) ++ (extra.map u16Bytes).flatten

/-- The closed form of an entire built buffer: root offset, identifier,
vtable, then the table (soffset followed by inline fields) and the string
arena. -/
def colliderLayout (args : ColliderComponentDataArgs) (extra : List Nat) : List Nat :=
  u32Bytes (26 + 2 * extra.length) ++ cldrBytes ++ vtbSeg args extra ++
    u32Bytes (18 + 2 * extra.length) ++ preOwned args

theorem flatten_u16_length (extra : List Nat) :
    ((extra.map u16Bytes).flatten).length = 2 * extra.length := by
  induction extra with
  | nil => rfl
  | cons a t ih =>
    simp only [List.map_cons, List.flatten_cons, List.length_append, ih,
      length_u16Bytes, List.length_cons]
    omega

set_option maxHeartbeats 1000000 in
theorem buildWith_eq (args : ColliderComponentDataArgs) (extra : List Nat) :
    buildWith args extra = colliderLayout args extra := by
  have h4 := entry4_pre args
  have h6 := entry6_pre args
  have h8 := entry8_pre args
  have h10 := entry10_pre args
  have h12 := entry12_pre args
  have h14 := entry14_pre args
  have h16 := entry16_pre args
  have htl : (preOwned args).length + 4 - strBase args = tableLenV args := by
    simp [preOwned, preBase, strBase, scalarSegs, tableLenV]
    omega
  rw [buildWith]
  simp only [buildPre_eq, endTableWith, finishBuffer, FlatBufferBuilder.push]
  rw [htl, h4, h6, h8, h10, h12, h14, h16]
  simp only [colliderLayout, vtbSeg, List.append_assoc, List.length_append,
    List.length_cons, List.length_nil, length_u16Bytes, length_u32Bytes,
    cldrBytes]
  rw [flatten_u16_length]
  have hA : 0 + 1 + 1 + 1 + 1 +
      (2 + (2 + (2 + (2 + (2 + (2 + (2 + (2 + (2 +
        (2 * extra.length + (4 + (preOwned args).length))))))))))) + 4 -
      ((preOwned args).length + 4) = 26 + 2 * extra.length := by omega
  rw [hA]

/-! Reading a built buffer. -/

theorem readBytes_skip (a b : List Nat) (p q n : Nat) (h : p = a.length + q) :
    readBytes (a ++ b) p n = readBytes b q n := by
  subst h
  rw [readBytes_append_right a b _ n (by omega), Nat.add_sub_cancel_left]

theorem readLEU_skip (a b : List Nat) (p q n : Nat) (h : p = a.length + q) :
    readLEU (a ++ b) p n = readLEU b q n := by
  rw [readLEU, readBytes_skip a b p q n h, readLEU]

theorem length_ctSeg_le (c : Int) : (ctSeg c).length ≤ 1 := by
  by_cases hc : c = 0 <;> simp [ctSeg, hc]

theorem length_trSeg_le (t : Bool) : (trSeg t).length ≤ 1 := by
  cases t <;> simp [trSeg]

theorem length_szSeg_le (o : Option Vec3) : (szSeg o).length ≤ 12 := by
  cases o <;> simp [szSeg]

theorem length_rdSeg_le (r : Nat) : (rdSeg r).length ≤ 4 := by
  by_cases hr : f32IsZero r <;> simp [rdSeg, hr]

theorem length_htSeg_le (h : Nat) : (htSeg h).length ≤ 4 := by
  by_cases hh : f32IsZero h <;> simp [htSeg, hh]

theorem length_moSeg_le (mat mesh : Option (List Nat)) : (moSeg mat mesh).length ≤ 4 := by
  cases mat <;> simp [moSeg]

theorem length_poSeg_le (mesh : Option (List Nat)) : (poSeg mesh).length ≤ 4 := by
  cases mesh <;> simp [poSeg]

theorem scalarSegs_length_le (ct : Int) (tr : Bool) (sz : Option Vec3) (rd ht : Nat) :
    (scalarSegs ct tr sz rd ht).length ≤ 22 := by
  have h1 := length_ctSeg_le ct
  have h2 := length_trSeg_le tr
  have h3 := length_szSeg_le sz
  have h4 := length_rdSeg_le rd
  have h5 := length_htSeg_le ht
  simp only [scalarSegs, List.length_append]
  omega

theorem e4v_le (args : ColliderComponentDataArgs) : e4v args ≤ 4 := by
  by_cases h : args.collider_type = 0 <;> simp [e4v, h]

theorem e6v_le (args : ColliderComponentDataArgs) : e6v args ≤ 5 := by
  have := length_ctSeg_le args.collider_type
  by_cases h : args.is_trigger <;> simp [e6v, h] <;> omega

theorem e8v_le (args : ColliderComponentDataArgs) : e8v args ≤ 6 := by
  have h1 := length_ctSeg_le args.collider_type
  have h2 := length_trSeg_le args.is_trigger
  cases hsz : args.size <;> simp [e8v, hsz] <;> omega

theorem e10v_le (args : ColliderComponentDataArgs) : e10v args ≤ 18 := by
  have h1 := length_ctSeg_le args.collider_type
  have h2 := length_trSeg_le args.is_trigger
  have h3 := length_szSeg_le args.size
  by_cases h : f32IsZero args.radius <;> simp [e10v, h] <;> omega

theorem e12v_le (args : ColliderComponentDataArgs) : e12v args ≤ 22 := by
  have h1 := length_ctSeg_le args.collider_type
  have h2 := length_trSeg_le args.is_trigger
  have h3 := length_szSeg_le args.size
  have h4 := length_rdSeg_le args.radius
  by_cases h : f32IsZero args.height <;> simp [e12v, h] <;> omega

theorem e14v_le (args : ColliderComponentDataArgs) : e14v args ≤ 26 := by
  have h1 := scalarSegs_length_le args.collider_type args.is_trigger args.size
    args.radius args.height
  cases hm : args.material_name <;> simp [e14v, hm] <;> omega

theorem e16v_le (args : ColliderComponentDataArgs) : e16v args ≤ 30 := by
  have h1 := scalarSegs_length_le args.collider_type args.is_trigger args.size
    args.radius args.height
  cases hm : args.mesh_path with
  | none => simp [e16v, hm]
  | some s =>
    have h2 := length_moSeg_le args.material_name (some s)
    simp [e16v, hm]
    omega

theorem sum_map_length_u16 (extra : List Nat) :
    (List.map (List.length ∘ u16Bytes) extra).sum = 2 * extra.length := by
  induction extra with
  | nil => rfl
  | cons a t ih =>
    simp [ih]
    omega

theorem length_colliderLayout (args : ColliderComponentDataArgs) (extra : List Nat) :
    (colliderLayout args extra).length =
      30 + 2 * extra.length + (preOwned args).length := by
  simp [colliderLayout, vtbSeg, cldrBytes, sum_map_length_u16]
  omega

theorem readLEU_layout_root (args : ColliderComponentDataArgs) (extra : List Nat)
    (hk : extra.length ≤ 1000) :
    readLEU (colliderLayout args extra) 0 4 = 26 + 2 * extra.length := by
  simp only [colliderLayout, List.append_assoc]
  rw [readLEU_append_left _ _ _ _ (by simp)]
  rw [readLEU, readBytes_zero_of_full _ _ (by simp), leNat_u32Bytes]
  omega

theorem readBytes_layout_ident (args : ColliderComponentDataArgs) (extra : List Nat) :
    readBytes (colliderLayout args extra) 4 4 = cldrBytes := by
  simp only [colliderLayout, List.append_assoc]
  rw [readBytes_skip (u32Bytes (26 + 2 * extra.length)) _ 4 0 4 (by simp)]
  rw [readBytes_append_left _ _ _ _ (by simp [cldrBytes])]
  rw [readBytes_zero_of_full _ _ (by simp [cldrBytes])]

theorem readLEU_layout_soffset (args : ColliderComponentDataArgs) (extra : List Nat)
    (hk : extra.length ≤ 1000) :
    readLEU (colliderLayout args extra) (26 + 2 * extra.length) 4 =
      18 + 2 * extra.length := by
  have hsp : colliderLayout args extra =
      (u32Bytes (26 + 2 * extra.length) ++ cldrBytes ++ vtbSeg args extra) ++
        (u32Bytes (18 + 2 * extra.length) ++ preOwned args) := by
    simp [colliderLayout, List.append_assoc]
  rw [hsp, readLEU_skip _ _ _ 0 4
    (by simp [vtbSeg, cldrBytes, sum_map_length_u16]; omega)]
  rw [readLEU_append_left _ _ _ _ (by simp)]
  rw [readLEU, readBytes_zero_of_full _ _ (by simp), leNat_u32Bytes]
  omega

theorem readLEU_layout_vtLen (args : ColliderComponentDataArgs) (extra : List Nat)
    (hk : extra.length ≤ 1000) :
    readLEU (colliderLayout args extra) 8 2 = 18 + 2 * extra.length := by
  simp only [colliderLayout, vtbSeg, List.append_assoc]
  rw [readLEU_skip (u32Bytes (26 + 2 * extra.length)) _ 8 4 2 (by simp)]
  rw [readLEU_skip cldrBytes _ 4 0 2 (by simp [cldrBytes])]
  rw [readLEU_append_left _ _ _ _ (by simp)]
  rw [readLEU, readBytes_zero_of_full _ _ (by simp), leNat_u16Bytes]
  omega

theorem tableVtU_layout (args : ColliderComponentDataArgs) (extra : List Nat)
    (hk : extra.length ≤ 1000) :
    tableVtU (colliderLayout args extra) (26 + 2 * extra.length) = 8 := by
  rw [tableVtU, readLEU_layout_soffset args extra hk]
  have h1 : asI32 (18 + 2 * extra.length) = ((18 + 2 * extra.length : Nat) : Int) := by
    simp only [asI32]
    split <;> omega
  rw [h1]
  omega

theorem readLEU_layout_entry_e4v (args : ColliderComponentDataArgs)
    (extra : List Nat) :
    readLEU (colliderLayout args extra) 12 2 = e4v args := by
  have hle := e4v_le args
  simp only [colliderLayout, vtbSeg, List.append_assoc]
  rw [readLEU_skip (u32Bytes (26 + 2 * extra.length)) _ 12 8 2 (by simp)]
  rw [readLEU_skip cldrBytes _ 8 4 2 (by simp [cldrBytes])]
  rw [readLEU_skip (u16Bytes (18 + 2 * extra.length)) _ 4 2 2 (by simp)]
  rw [readLEU_skip (u16Bytes (tableLenV args)) _ 2 0 2 (by simp)]
  rw [readLEU_append_left _ _ _ _ (by simp)]
  rw [readLEU, readBytes_zero_of_full _ _ (by simp), leNat_u16Bytes]
  omega

theorem readLEU_layout_entry_e6v (args : ColliderComponentDataArgs)
    (extra : List Nat) :
    readLEU (colliderLayout args extra) 14 2 = e6v args := by
  have hle := e6v_le args
  simp only [colliderLayout, vtbSeg, List.append_assoc]
  rw [readLEU_skip (u32Bytes (26 + 2 * extra.length)) _ 14 10 2 (by simp)]
  rw [readLEU_skip cldrBytes _ 10 6 2 (by simp [cldrBytes])]
  rw [readLEU_skip (u16Bytes (18 + 2 * extra.length)) _ 6 4 2 (by simp)]
  rw [readLEU_skip (u16Bytes (tableLenV args)) _ 4 2 2 (by simp)]
  rw [readLEU_skip (u16Bytes (e4v args)) _ 2 0 2 (by simp)]
  rw [readLEU_append_left _ _ _ _ (by simp)]
  rw [readLEU, readBytes_zero_of_full _ _ (by simp), leNat_u16Bytes]
  omega

theorem readLEU_layout_entry_e8v (args : ColliderComponentDataArgs)
    (extra : List Nat) :
    readLEU (colliderLayout args extra) 16 2 = e8v args := by
  have hle := e8v_le args
  simp only [colliderLayout, vtbSeg, List.append_assoc]
  rw [readLEU_skip (u32Bytes (26 + 2 * extra.length)) _ 16 12 2 (by simp)]
  rw [readLEU_skip cldrBytes _ 12 8 2 (by simp [cldrBytes])]
  rw [readLEU_skip (u16Bytes (18 + 2 * extra.length)) _ 8 6 2 (by simp)]
  rw [readLEU_skip (u16Bytes (tableLenV args)) _ 6 4 2 (by simp)]
  rw [readLEU_skip (u16Bytes (e4v args)) _ 4 2 2 (by simp)]
  rw [readLEU_skip (u16Bytes (e6v args)) _ 2 0 2 (by simp)]
  rw [readLEU_append_left _ _ _ _ (by simp)]
  rw [readLEU, readBytes_zero_of_full _ _ (by simp), leNat_u16Bytes]
  omega

theorem readLEU_layout_entry_e10v (args : ColliderComponentDataArgs)
    (extra : List Nat) :
    readLEU (colliderLayout args extra) 18 2 = e10v args := by
  have hle := e10v_le args
  simp only [colliderLayout, vtbSeg, List.append_assoc]
  rw [readLEU_skip (u32Bytes (26 + 2 * extra.length)) _ 18 14 2 (by simp)]
  rw [readLEU_skip cldrBytes _ 14 10 2 (by simp [cldrBytes])]
  rw [readLEU_skip (u16Bytes (18 + 2 * extra.length)) _ 10 8 2 (by simp)]
  rw [readLEU_skip (u16Bytes (tableLenV args)) _ 8 6 2 (by simp)]
  rw [readLEU_skip (u16Bytes (e4v args)) _ 6 4 2 (by simp)]
  rw [readLEU_skip (u16Bytes (e6v args)) _ 4 2 2 (by simp)]
  rw [readLEU_skip (u16Bytes (e8v args)) _ 2 0 2 (by simp)]
  rw [readLEU_append_left _ _ _ _ (by simp)]
  rw [readLEU, readBytes_zero_of_full _ _ (by simp), leNat_u16Bytes]
  omega

theorem readLEU_layout_entry_e12v (args : ColliderComponentDataArgs)
    (extra : List Nat) :
    readLEU (colliderLayout args extra) 20 2 = e12v args := by
  have hle := e12v_le args
  simp only [colliderLayout, vtbSeg, List.append_assoc]
  rw [readLEU_skip (u32Bytes (26 + 2 * extra.length)) _ 20 16 2 (by simp)]
  rw [readLEU_skip cldrBytes _ 16 12 2 (by simp [cldrBytes])]
  rw [readLEU_skip (u16Bytes (18 + 2 * extra.length)) _ 12 10 2 (by simp)]
  rw [readLEU_skip (u16Bytes (tableLenV args)) _ 10 8 2 (by simp)]
  rw [readLEU_skip (u16Bytes (e4v args)) _ 8 6 2 (by simp)]
  rw [readLEU_skip (u16Bytes (e6v args)) _ 6 4 2 (by simp)]
  rw [readLEU_skip (u16Bytes (e8v args)) _ 4 2 2 (by simp)]
  rw [readLEU_skip (u16Bytes (e10v args)) _ 2 0 2 (by simp)]
  rw [readLEU_append_left _ _ _ _ (by simp)]
  rw [readLEU, readBytes_zero_of_full _ _ (by simp), leNat_u16Bytes]
  omega

theorem readLEU_layout_entry_e14v (args : ColliderComponentDataArgs)
    (extra : List Nat) :
    readLEU (colliderLayout args extra) 22 2 = e14v args := by
  have hle := e14v_le args
  simp only [colliderLayout, vtbSeg, List.append_assoc]
  rw [readLEU_skip (u32Bytes (26 + 2 * extra.length)) _ 22 18 2 (by simp)]
  rw [readLEU_skip cldrBytes _ 18 14 2 (by simp [cldrBytes])]
  rw [readLEU_skip (u16Bytes (18 + 2 * extra.length)) _ 14 12 2 (by simp)]
  rw [readLEU_skip (u16Bytes (tableLenV args)) _ 12 10 2 (by simp)]
  rw [readLEU_skip (u16Bytes (e4v args)) _ 10 8 2 (by simp)]
  rw [readLEU_skip (u16Bytes (e6v args)) _ 8 6 2 (by simp)]
  rw [readLEU_skip (u16Bytes (e8v args)) _ 6 4 2 (by simp)]
  rw [readLEU_skip (u16Bytes (e10v args)) _ 4 2 2 (by simp)]
  rw [readLEU_skip (u16Bytes (e12v args)) _ 2 0 2 (by simp)]
  rw [readLEU_append_left _ _ _ _ (by simp)]
  rw [readLEU, readBytes_zero_of_full _ _ (by simp), leNat_u16Bytes]
  omega

theorem readLEU_layout_entry_e16v (args : ColliderComponentDataArgs)
    (extra : List Nat) :
    readLEU (colliderLayout args extra) 24 2 = e16v args := by
  have hle := e16v_le args
  simp only [colliderLayout, vtbSeg, List.append_assoc]
  rw [readLEU_skip (u32Bytes (26 + 2 * extra.length)) _ 24 20 2 (by simp)]
  rw [readLEU_skip cldrBytes _ 20 16 2 (by simp [cldrBytes])]
  rw [readLEU_skip (u16Bytes (18 + 2 * extra.length)) _ 16 14 2 (by simp)]
  rw [readLEU_skip (u16Bytes (tableLenV args)) _ 14 12 2 (by simp)]
  rw [readLEU_skip (u16Bytes (e4v args)) _ 12 10 2 (by simp)]
  rw [readLEU_skip (u16Bytes (e6v args)) _ 10 8 2 (by simp)]
  rw [readLEU_skip (u16Bytes (e8v args)) _ 8 6 2 (by simp)]
  rw [readLEU_skip (u16Bytes (e10v args)) _ 6 4 2 (by simp)]
  rw [readLEU_skip (u16Bytes (e12v args)) _ 4 2 2 (by simp)]
  rw [readLEU_skip (u16Bytes (e14v args)) _ 2 0 2 (by simp)]
  rw [readLEU_append_left _ _ _ _ (by simp)]
  rw [readLEU, readBytes_zero_of_full _ _ (by simp), leNat_u16Bytes]
  omega

theorem fieldEntryU_layout_4 (args : ColliderComponentDataArgs)
    (extra : List Nat) (hk : extra.length ≤ 1000) :
    fieldEntryU (colliderLayout args extra) (26 + 2 * extra.length) 4 =
      e4v args := by
  simp only [fieldEntryU]
  rw [tableVtU_layout args extra hk, readLEU_layout_vtLen args extra hk]
  rw [if_pos (by omega)]
  have hp : (8 : Nat) + 4 = 12 := by norm_num
  rw [hp, readLEU_layout_entry_e4v args extra]

theorem fieldEntryU_layout_6 (args : ColliderComponentDataArgs)
    (extra : List Nat) (hk : extra.length ≤ 1000) :
    fieldEntryU (colliderLayout args extra) (26 + 2 * extra.length) 6 =
      e6v args := by
  simp only [fieldEntryU]
  rw [tableVtU_layout args extra hk, readLEU_layout_vtLen args extra hk]
  rw [if_pos (by omega)]
  have hp : (8 : Nat) + 6 = 14 := by norm_num
  rw [hp, readLEU_layout_entry_e6v args extra]

theorem fieldEntryU_layout_8 (args : ColliderComponentDataArgs)
    (extra : List Nat) (hk : extra.length ≤ 1000) :
    fieldEntryU (colliderLayout args extra) (26 + 2 * extra.length) 8 =
      e8v args := by
  simp only [fieldEntryU]
  rw [tableVtU_layout args extra hk, readLEU_layout_vtLen args extra hk]
  rw [if_pos (by omega)]
  have hp : (8 : Nat) + 8 = 16 := by norm_num
  rw [hp, readLEU_layout_entry_e8v args extra]

theorem fieldEntryU_layout_10 (args : ColliderComponentDataArgs)
    (extra : List Nat) (hk : extra.length ≤ 1000) :
    fieldEntryU (colliderLayout args extra) (26 + 2 * extra.length) 10 =
      e10v args := by
  simp only [fieldEntryU]
  rw [tableVtU_layout args extra hk, readLEU_layout_vtLen args extra hk]
  rw [if_pos (by omega)]
  have hp : (8 : Nat) + 10 = 18 := by norm_num
  rw [hp, readLEU_layout_entry_e10v args extra]

theorem fieldEntryU_layout_12 (args : ColliderComponentDataArgs)
    (extra : List Nat) (hk : extra.length ≤ 1000) :
    fieldEntryU (colliderLayout args extra) (26 + 2 * extra.length) 12 =
      e12v args := by
  simp only [fieldEntryU]
  rw [tableVtU_layout args extra hk, readLEU_layout_vtLen args extra hk]
  rw [if_pos (by omega)]
  have hp : (8 : Nat) + 12 = 20 := by norm_num
  rw [hp, readLEU_layout_entry_e12v args extra]

theorem fieldEntryU_layout_14 (args : ColliderComponentDataArgs)
    (extra : List Nat) (hk : extra.length ≤ 1000) :
    fieldEntryU (colliderLayout args extra) (26 + 2 * extra.length) 14 =
      e14v args := by
  simp only [fieldEntryU]
  rw [tableVtU_layout args extra hk, readLEU_layout_vtLen args extra hk]
  rw [if_pos (by omega)]
  have hp : (8 : Nat) + 14 = 22 := by norm_num
  rw [hp, readLEU_layout_entry_e14v args extra]

theorem fieldEntryU_layout_16 (args : ColliderComponentDataArgs)
    (extra : List Nat) (hk : extra.length ≤ 1000) :
    fieldEntryU (colliderLayout args extra) (26 + 2 * extra.length) 16 =
      e16v args := by
  simp only [fieldEntryU]
  rw [tableVtU_layout args extra hk, readLEU_layout_vtLen args extra hk]
  rw [if_pos (by omega)]
  have hp : (8 : Nat) + 16 = 24 := by norm_num
  rw [hp, readLEU_layout_entry_e16v args extra]

@[simp] theorem leNat_singleton (x : Nat) : leNat [x] = x % 256 := by
  simp [leNat]

theorem readBytes_layout_pre (args : ColliderComponentDataArgs) (extra : List Nat)
    (q n : Nat) :
    readBytes (colliderLayout args extra) (30 + 2 * extra.length + q) n =
      readBytes (preOwned args) q n := by
  have hsp : colliderLayout args extra =
      (u32Bytes (26 + 2 * extra.length) ++ cldrBytes ++ vtbSeg args extra ++
        u32Bytes (18 + 2 * extra.length)) ++ preOwned args := by
    simp [colliderLayout, List.append_assoc]
  rw [hsp]
  refine readBytes_skip _ _ _ q n ?_
  simp [vtbSeg, cldrBytes, sum_map_length_u16]
  omega

theorem readLEU_layout_pre (args : ColliderComponentDataArgs) (extra : List Nat)
    (q n : Nat) :
    readLEU (colliderLayout args extra) (30 + 2 * extra.length + q) n =
      readLEU (preOwned args) q n := by
  rw [readLEU, readBytes_layout_pre, readLEU]

/-! Field value reads within the table region. -/

theorem pre_read_ct (args : ColliderComponentDataArgs)
    (hc : ¬args.collider_type = 0) :
    readLEU (preOwned args) 0 1 = i8Byte args.collider_type := by
  simp only [preOwned, scalarSegs, List.append_assoc]
  rw [readLEU_append_left _ _ _ _ (by simp [ctSeg, hc])]
  rw [ctSeg, if_neg hc]
  have := i8Byte_lt args.collider_type
  simp [readLEU, readBytes]
  omega

theorem pre_read_tr (args : ColliderComponentDataArgs)
    (ht : args.is_trigger = true) :
    readLEU (preOwned args) (ctSeg args.collider_type).length 1 = 1 := by
  simp only [preOwned, scalarSegs, List.append_assoc]
  rw [readLEU_skip (ctSeg args.collider_type) _ _ 0 1 (by omega)]
  rw [readLEU_append_left _ _ _ _ (by simp [trSeg, ht])]
  rw [trSeg, ht, if_pos rfl]
  simp [readLEU, readBytes]

theorem pre_read_sz_x (args : ColliderComponentDataArgs) (v : Vec3)
    (hs : args.size = some v) :
    readLEU (preOwned args)
      ((ctSeg args.collider_type).length + (trSeg args.is_trigger).length) 4 =
      v.x % 4294967296 := by
  simp only [preOwned, scalarSegs, List.append_assoc]
  rw [readLEU_skip (ctSeg args.collider_type) _ _
    ((trSeg args.is_trigger).length + 0) 4 (by omega)]
  rw [readLEU_skip (trSeg args.is_trigger) _ _ 0 4 (by omega)]
  rw [hs]
  rw [readLEU_append_left _ _ _ _ (by simp [szSeg])]
  simp only [szSeg, vec3Bytes, List.append_assoc]
  rw [readLEU_append_left _ _ _ _ (by simp)]
  rw [readLEU, readBytes_zero_of_full _ _ (by simp), leNat_u32Bytes]

theorem pre_read_sz_y (args : ColliderComponentDataArgs) (v : Vec3)
    (hs : args.size = some v) :
    readLEU (preOwned args)
      ((ctSeg args.collider_type).length + (trSeg args.is_trigger).length + 4) 4 =
      v.y % 4294967296 := by
  simp only [preOwned, scalarSegs, List.append_assoc]
  rw [readLEU_skip (ctSeg args.collider_type) _ _
    ((trSeg args.is_trigger).length + 4) 4 (by omega)]
  rw [readLEU_skip (trSeg args.is_trigger) _ _ 4 4 (by omega)]
  rw [hs]
  rw [readLEU_append_left _ _ _ _ (by simp [szSeg])]
  simp only [szSeg, vec3Bytes, List.append_assoc]
  rw [readLEU_skip (u32Bytes v.x) _ 4 0 4 (by simp)]
  rw [readLEU_append_left _ _ _ _ (by simp)]
  rw [readLEU, readBytes_zero_of_full _ _ (by simp), leNat_u32Bytes]

theorem pre_read_sz_z (args : ColliderComponentDataArgs) (v : Vec3)
    (hs : args.size = some v) :
    readLEU (preOwned args)
      ((ctSeg args.collider_type).length + (trSeg args.is_trigger).length + 8) 4 =
      v.z % 4294967296 := by
  simp only [preOwned, scalarSegs, List.append_assoc]
  rw [readLEU_skip (ctSeg args.collider_type) _ _
    ((trSeg args.is_trigger).length + 8) 4 (by omega)]
  rw [readLEU_skip (trSeg args.is_trigger) _ _ 8 4 (by omega)]
  rw [hs]
  rw [readLEU_append_left _ _ _ _ (by simp [szSeg])]
  simp only [szSeg, vec3Bytes, List.append_assoc]
  rw [readLEU_skip (u32Bytes v.x) _ 8 4 4 (by simp)]
  rw [readLEU_skip (u32Bytes v.y) _ 4 0 4 (by simp)]
  rw [readLEU, readBytes_zero_of_full _ _ (by simp), leNat_u32Bytes]

theorem pre_read_rd (args : ColliderComponentDataArgs)
    (hr : ¬f32IsZero args.radius) :
    readLEU (preOwned args)
      ((ctSeg args.collider_type).length + (trSeg args.is_trigger).length +
        (szSeg args.size).length) 4 = args.radius % 4294967296 := by
  simp only [preOwned, scalarSegs, List.append_assoc]
  rw [readLEU_skip (ctSeg args.collider_type) _ _
    ((trSeg args.is_trigger).length + (szSeg args.size).length) 4 (by omega)]
  rw [readLEU_skip (trSeg args.is_trigger) _ _ (szSeg args.size).length 4 (by omega)]
  rw [readLEU_skip (szSeg args.size) _ _ 0 4 (by omega)]
  rw [readLEU_append_left _ _ _ _ (by simp [rdSeg, hr])]
  rw [rdSeg, if_neg hr]
  rw [readLEU, readBytes_zero_of_full _ _ (by simp), leNat_u32Bytes]

theorem pre_read_ht (args : ColliderComponentDataArgs)
    (hh : ¬f32IsZero args.height) :
    readLEU (preOwned args)
      ((ctSeg args.collider_type).length + (trSeg args.is_trigger).length +
        (szSeg args.size).length + (rdSeg args.radius).length) 4 =
      args.height % 4294967296 := by
  simp only [preOwned, scalarSegs, List.append_assoc]
  rw [readLEU_skip (ctSeg args.collider_type) _ _
    ((trSeg args.is_trigger).length + (szSeg args.size).length +
      (rdSeg args.radius).length) 4 (by omega)]
  rw [readLEU_skip (trSeg args.is_trigger) _ _
    ((szSeg args.size).length + (rdSeg args.radius).length) 4 (by omega)]
  rw [readLEU_skip (szSeg args.size) _ _ (rdSeg args.radius).length 4 (by omega)]
  rw [readLEU_skip (rdSeg args.radius) _ _ 0 4 (by omega)]
  rw [readLEU_append_left _ _ _ _ (by simp [htSeg, hh])]
  rw [htSeg, if_neg hh]
  rw [readLEU, readBytes_zero_of_full _ _ (by simp), leNat_u32Bytes]

/-! String region reads. `SC`, `PO`, `PS` abbreviate the lengths of the
inline scalar region, the `mesh_path` offset segment and the `mesh_path`
string segment. -/

theorem pre_read_mo (args : ColliderComponentDataArgs) (s : List Nat)
    (hm : args.material_name = some s) :
    readLEU (preOwned args)
      (scalarSegs args.collider_type args.is_trigger args.size args.radius
        args.height).length 4 =
      (4 + (poSeg args.mesh_path).length + (optStrSeg args.mesh_path).length) %
        4294967296 := by
  simp only [preOwned, List.append_assoc]
  rw [readLEU_skip (scalarSegs args.collider_type args.is_trigger args.size
    args.radius args.height) _ _ 0 4 (by omega)]
  rw [hm, readLEU_append_left _ _ _ _ (by simp [moSeg])]
  rw [moSeg]
  rw [readLEU, readBytes_zero_of_full _ _ (by simp), leNat_u32Bytes]

theorem pre_read_mat_len (args : ColliderComponentDataArgs) (s : List Nat)
    (hm : args.material_name = some s) :
    readLEU (preOwned args)
      ((scalarSegs args.collider_type args.is_trigger args.size args.radius
          args.height).length + 4 + (poSeg args.mesh_path).length +
        (optStrSeg args.mesh_path).length) 4 = s.length % 4294967296 := by
  simp only [preOwned, List.append_assoc]
  rw [hm]
  rw [readLEU_skip (scalarSegs args.collider_type args.is_trigger args.size
    args.radius args.height) _ _
    (4 + (poSeg args.mesh_path).length + (optStrSeg args.mesh_path).length) 4
    (by omega)]
  rw [readLEU_skip (moSeg (some s) args.mesh_path) _ _
    ((poSeg args.mesh_path).length + (optStrSeg args.mesh_path).length) 4
    (by simp [moSeg]; omega)]
  rw [readLEU_skip (poSeg args.mesh_path) _ _ (optStrSeg args.mesh_path).length 4
    (by omega)]
  rw [readLEU_skip (optStrSeg args.mesh_path) _ _ 0 4 (by omega)]
  simp only [optStrSeg, strSeg, List.append_assoc]
  rw [readLEU_append_left _ _ _ _ (by simp)]
  rw [readLEU, readBytes_zero_of_full _ _ (by simp), leNat_u32Bytes]

theorem pre_read_mat_bytes (args : ColliderComponentDataArgs) (s : List Nat)
    (hm : args.material_name = some s) :
    readBytes (preOwned args)
      ((scalarSegs args.collider_type args.is_trigger args.size args.radius
          args.height).length + 4 + (poSeg args.mesh_path).length +
        (optStrSeg args.mesh_path).length + 4) s.length = s := by
  simp only [preOwned, List.append_assoc]
  rw [hm]
  rw [readBytes_skip (scalarSegs args.collider_type args.is_trigger args.size
    args.radius args.height) _ _
    (4 + (poSeg args.mesh_path).length + (optStrSeg args.mesh_path).length + 4)
    s.length (by omega)]
  rw [readBytes_skip (moSeg (some s) args.mesh_path) _ _
    ((poSeg args.mesh_path).length + (optStrSeg args.mesh_path).length + 4)
    s.length (by simp [moSeg]; omega)]
  rw [readBytes_skip (poSeg args.mesh_path) _ _
    ((optStrSeg args.mesh_path).length + 4) s.length (by omega)]
  rw [readBytes_skip (optStrSeg args.mesh_path) _ _ 4 s.length (by omega)]
  simp only [optStrSeg, strSeg, List.append_assoc]
  rw [readBytes_skip (u32Bytes s.length) _ 4 0 s.length (by simp)]
  rw [readBytes, List.drop_zero, List.take_append_of_le_length (by simp)]
  simp

theorem pre_read_mat_nul (args : ColliderComponentDataArgs) (s : List Nat)
    (hm : args.material_name = some s) :
    readLEU (preOwned args)
      ((scalarSegs args.collider_type args.is_trigger args.size args.radius
          args.height).length + 4 + (poSeg args.mesh_path).length +
        (optStrSeg args.mesh_path).length + 4 + s.length) 1 = 0 := by
  simp only [preOwned, List.append_assoc]
  rw [hm]
  rw [readLEU_skip (scalarSegs args.collider_type args.is_trigger args.size
    args.radius args.height) _ _
    (4 + (poSeg args.mesh_path).length + (optStrSeg args.mesh_path).length + 4 +
      s.length) 1 (by omega)]
  rw [readLEU_skip (moSeg (some s) args.mesh_path) _ _
    ((poSeg args.mesh_path).length + (optStrSeg args.mesh_path).length + 4 +
      s.length) 1 (by simp [moSeg]; omega)]
  rw [readLEU_skip (poSeg args.mesh_path) _ _
    ((optStrSeg args.mesh_path).length + 4 + s.length) 1 (by omega)]
  rw [readLEU_skip (optStrSeg args.mesh_path) _ _ (4 + s.length) 1 (by omega)]
  simp only [optStrSeg, strSeg, List.append_assoc]
  rw [readLEU_skip (u32Bytes s.length) _ (4 + s.length) s.length 1 (by simp)]
  rw [readLEU_skip s _ s.length 0 1 (by omega)]
  simp [readLEU, readBytes]

theorem pre_read_po (args : ColliderComponentDataArgs) (p : List Nat)
    (hp : args.mesh_path = some p) :
    readLEU (preOwned args)
      ((scalarSegs args.collider_type args.is_trigger args.size args.radius
          args.height).length +
        (moSeg args.material_name args.mesh_path).length) 4 = 4 := by
  simp only [preOwned, List.append_assoc]
  rw [readLEU_skip (scalarSegs args.collider_type args.is_trigger args.size
    args.radius args.height) _ _
    (moSeg args.material_name args.mesh_path).length 4 (by omega)]
  rw [readLEU_skip (moSeg args.material_name args.mesh_path) _ _ 0 4 (by omega)]
  rw [hp, readLEU_append_left _ _ _ _ (by simp [poSeg])]
  rw [poSeg]
  rw [readLEU, readBytes_zero_of_full _ _ (by simp), leNat_u32Bytes]

theorem pre_read_mesh_len (args : ColliderComponentDataArgs) (p : List Nat)
    (hp : args.mesh_path = some p) :
    readLEU (preOwned args)
      ((scalarSegs args.collider_type args.is_trigger args.size args.radius
          args.height).length +
        (moSeg args.material_name args.mesh_path).length + 4) 4 =
      p.length % 4294967296 := by
  simp only [preOwned, List.append_assoc]
  rw [hp]
  rw [readLEU_skip (scalarSegs args.collider_type args.is_trigger args.size
    args.radius args.height) _ _
    ((moSeg args.material_name (some p)).length + 4) 4 (by omega)]
  rw [readLEU_skip (moSeg args.material_name (some p)) _ _ 4 4 (by omega)]
  rw [readLEU_skip (poSeg (some p)) _ 4 0 4 (by simp [poSeg])]
  rw [readLEU_append_left _ _ _ _ (by simp [optStrSeg, strSeg])]
  simp only [optStrSeg, strSeg, List.append_assoc]
  rw [readLEU_append_left _ _ _ _ (by simp)]
  rw [readLEU, readBytes_zero_of_full _ _ (by simp), leNat_u32Bytes]

theorem pre_read_mesh_bytes (args : ColliderComponentDataArgs) (p : List Nat)
    (hp : args.mesh_path = some p) :
    readBytes (preOwned args)
      ((scalarSegs args.collider_type args.is_trigger args.size args.radius
          args.height).length +
        (moSeg args.material_name args.mesh_path).length + 4 + 4) p.length = p := by
  simp only [preOwned, List.append_assoc]
  rw [hp]
  rw [readBytes_skip (scalarSegs args.collider_type args.is_trigger args.size
    args.radius args.height) _ _
    ((moSeg args.material_name (some p)).length + 4 + 4) p.length (by omega)]
  rw [readBytes_skip (moSeg args.material_name (some p)) _ _ (4 + 4) p.length
    (by omega)]
  rw [readBytes_skip (poSeg (some p)) _ (4 + 4) 4 p.length (by simp [poSeg])]
  simp only [optStrSeg, strSeg, List.append_assoc]
  rw [readBytes_skip (u32Bytes p.length) _ 4 0 p.length (by simp)]
  rw [readBytes, List.drop_zero, List.take_append_of_le_length (by simp)]
  simp

theorem pre_read_mesh_nul (args : ColliderComponentDataArgs) (p : List Nat)
    (hp : args.mesh_path = some p) :
    readLEU (preOwned args)
      ((scalarSegs args.collider_type args.is_trigger args.size args.radius
          args.height).length +
        (moSeg args.material_name args.mesh_path).length + 4 + 4 + p.length) 1 =
      0 := by
  simp only [preOwned, List.append_assoc]
  rw [hp]
  rw [readLEU_skip (scalarSegs args.collider_type args.is_trigger args.size
    args.radius args.height) _ _
    ((moSeg args.material_name (some p)).length + 4 + 4 + p.length) 1 (by omega)]
  rw [readLEU_skip (moSeg args.material_name (some p)) _ _ (4 + 4 + p.length) 1
    (by omega)]
  rw [readLEU_skip (poSeg (some p)) _ (4 + 4 + p.length) (4 + p.length) 1
    (by simp [poSeg]; omega)]
  simp only [optStrSeg, strSeg, List.append_assoc]
  rw [readLEU_skip (u32Bytes p.length) _ (4 + p.length) p.length 1 (by simp)]
  rw [readLEU_skip p _ p.length 0 1 (by omega)]
  rw [readLEU_append_left _ _ _ _ (by simp)]
  simp [readLEU, readBytes]

theorem length_optStrSeg_le (o : Option (List Nat)) (B : Nat)
    (h : ∀ s ∈ o, s.length ≤ B) : (optStrSeg o).length ≤ B + 5 := by
  cases o with
  | none => simp [optStrSeg]
  | some s =>
    have := h s rfl
    simp [optStrSeg, strSeg]
    omega

/-! Accessor values on a built buffer. -/

theorem collider_type_layout (args : ColliderComponentDataArgs) (extra : List Nat)
    (hk : extra.length ≤ 1000) (h1 : -128 ≤ args.collider_type)
    (h2 : args.collider_type ≤ 127) :
    ColliderComponentData.collider_type
        ⟨colliderLayout args extra, 26 + 2 * extra.length⟩ =
      args.collider_type := by
  simp only [ColliderComponentData.collider_type, tableGetScalarU]
  rw [fieldEntryU_layout_4 args extra hk]
  by_cases hc : args.collider_type = 0
  · simp [e4v, hc, asI8]
  · rw [e4v, if_neg hc]
    rw [if_neg (by omega)]
    simp only [Option.getD_some]
    have hq : 26 + 2 * extra.length + 4 = 30 + 2 * extra.length + 0 := by omega
    rw [hq, readLEU_layout_pre, pre_read_ct args hc, asI8_i8Byte _ h1 h2]

theorem is_trigger_layout (args : ColliderComponentDataArgs) (extra : List Nat)
    (hk : extra.length ≤ 1000) :
    ColliderComponentData.is_trigger
        ⟨colliderLayout args extra, 26 + 2 * extra.length⟩ =
      args.is_trigger := by
  simp only [ColliderComponentData.is_trigger, tableGetScalarU]
  rw [fieldEntryU_layout_6 args extra hk]
  cases htr : args.is_trigger
  · simp [e6v, htr]
  · rw [e6v, if_pos htr]
    rw [if_neg (by omega)]
    simp only [Option.getD_some]
    have hq : 26 + 2 * extra.length + (4 + (ctSeg args.collider_type).length) =
        30 + 2 * extra.length + (ctSeg args.collider_type).length := by omega
    rw [hq, readLEU_layout_pre, pre_read_tr args htr]
    simp

theorem size_layout (args : ColliderComponentDataArgs) (extra : List Nat)
    (hk : extra.length ≤ 1000)
    (hv : ∀ v ∈ args.size, v.x < 4294967296 ∧ v.y < 4294967296 ∧ v.z < 4294967296) :
    ColliderComponentData.size ⟨colliderLayout args extra, 26 + 2 * extra.length⟩ =
      args.size := by
  simp only [ColliderComponentData.size]
  rw [fieldEntryU_layout_8 args extra hk]
  cases hs : args.size with
  | none => simp [e8v, hs]
  | some v =>
    obtain ⟨hx, hy, hz⟩ := hv v hs
    simp only [e8v, hs]
    rw [if_neg (by omega)]
    simp only [vec3Follow]
    have hq1 : 26 + 2 * extra.length +
        (4 + (ctSeg args.collider_type).length + (trSeg args.is_trigger).length) =
        30 + 2 * extra.length +
          ((ctSeg args.collider_type).length + (trSeg args.is_trigger).length) := by
      omega
    have hq2 : 30 + 2 * extra.length +
        ((ctSeg args.collider_type).length + (trSeg args.is_trigger).length) + 4 =
        30 + 2 * extra.length +
          ((ctSeg args.collider_type).length + (trSeg args.is_trigger).length + 4) := by
      omega
    have hq3 : 30 + 2 * extra.length +
        ((ctSeg args.collider_type).length + (trSeg args.is_trigger).length) + 8 =
        30 + 2 * extra.length +
          ((ctSeg args.collider_type).length + (trSeg args.is_trigger).length + 8) := by
      omega
    rw [hq1, hq2, hq3]
    simp only [readLEU_layout_pre]
    rw [pre_read_sz_x args v hs, pre_read_sz_y args v hs, pre_read_sz_z args v hs]
    rw [Nat.mod_eq_of_lt hx, Nat.mod_eq_of_lt hy, Nat.mod_eq_of_lt hz]

theorem radius_layout (args : ColliderComponentDataArgs) (extra : List Nat)
    (hk : extra.length ≤ 1000) (hr32 : args.radius < 4294967296) :
    ColliderComponentData.radius ⟨colliderLayout args extra, 26 + 2 * extra.length⟩ =
      if f32IsZero args.radius then 0 else args.radius := by
  simp only [ColliderComponentData.radius, tableGetScalarU]
  rw [fieldEntryU_layout_10 args extra hk]
  by_cases hr : f32IsZero args.radius
  · simp [e10v, hr]
  · rw [e10v, if_neg hr, if_neg hr]
    rw [if_neg (by omega)]
    simp only [Option.getD_some]
    have hq : 26 + 2 * extra.length +
        (4 + (ctSeg args.collider_type).length + (trSeg args.is_trigger).length +
          (szSeg args.size).length) =
        30 + 2 * extra.length +
          ((ctSeg args.collider_type).length + (trSeg args.is_trigger).length +
            (szSeg args.size).length) := by
      omega
    rw [hq, readLEU_layout_pre, pre_read_rd args hr, Nat.mod_eq_of_lt hr32]

theorem height_layout (args : ColliderComponentDataArgs) (extra : List Nat)
    (hk : extra.length ≤ 1000) (hh32 : args.height < 4294967296) :
    ColliderComponentData.height ⟨colliderLayout args extra, 26 + 2 * extra.length⟩ =
      if f32IsZero args.height then 0 else args.height := by
  simp only [ColliderComponentData.height, tableGetScalarU]
  rw [fieldEntryU_layout_12 args extra hk]
  by_cases hh : f32IsZero args.height
  · simp [e12v, hh]
  · rw [e12v, if_neg hh, if_neg hh]
    rw [if_neg (by omega)]
    simp only [Option.getD_some]
    have hq : 26 + 2 * extra.length +
        (4 + (ctSeg args.collider_type).length + (trSeg args.is_trigger).length +
          (szSeg args.size).length + (rdSeg args.radius).length) =
        30 + 2 * extra.length +
          ((ctSeg args.collider_type).length + (trSeg args.is_trigger).length +
            (szSeg args.size).length + (rdSeg args.radius).length) := by
      omega
    rw [hq, readLEU_layout_pre, pre_read_ht args hh, Nat.mod_eq_of_lt hh32]

theorem material_name_layout (args : ColliderComponentDataArgs) (extra : List Nat)
    (hk : extra.length ≤ 1000)
    (hml : ∀ s ∈ args.material_name, s.length ≤ 1048576)
    (hpl : ∀ s ∈ args.mesh_path, s.length ≤ 1048576) :
    ColliderComponentData.material_name
        ⟨colliderLayout args extra, 26 + 2 * extra.length⟩ =
      args.material_name := by
  simp only [ColliderComponentData.material_name]
  rw [fieldEntryU_layout_14 args extra hk]
  cases hm : args.material_name with
  | none => simp [e14v, hm]
  | some s =>
    have hsl : s.length ≤ 1048576 := hml s hm
    have hps := length_optStrSeg_le args.mesh_path 1048576 hpl
    have hpo := length_poSeg_le args.mesh_path
    simp only [e14v, hm]
    rw [if_neg (by omega)]
    have hq1 : 26 + 2 * extra.length +
        (4 + (scalarSegs args.collider_type args.is_trigger args.size args.radius
          args.height).length) =
        30 + 2 * extra.length +
          (scalarSegs args.collider_type args.is_trigger args.size args.radius
            args.height).length := by
      omega
    rw [hq1, readLEU_layout_pre, pre_read_mo args s hm]
    rw [Nat.mod_eq_of_lt (by omega)]
    have hq2 : 30 + 2 * extra.length +
        (scalarSegs args.collider_type args.is_trigger args.size args.radius
          args.height).length +
        (4 + (poSeg args.mesh_path).length + (optStrSeg args.mesh_path).length) =
        30 + 2 * extra.length +
          ((scalarSegs args.collider_type args.is_trigger args.size args.radius
            args.height).length + 4 + (poSeg args.mesh_path).length +
            (optStrSeg args.mesh_path).length) := by
      omega
    rw [hq2, readLEU_layout_pre, pre_read_mat_len args s hm]
    rw [Nat.mod_eq_of_lt (by omega)]
    have hq3 : 30 + 2 * extra.length +
        ((scalarSegs args.collider_type args.is_trigger args.size args.radius
          args.height).length + 4 + (poSeg args.mesh_path).length +
          (optStrSeg args.mesh_path).length) + 4 =
        30 + 2 * extra.length +
          ((scalarSegs args.collider_type args.is_trigger args.size args.radius
            args.height).length + 4 + (poSeg args.mesh_path).length +
            (optStrSeg args.mesh_path).length + 4) := by
      omega
    rw [hq3, readBytes_layout_pre, pre_read_mat_bytes args s hm]

theorem mesh_path_layout (args : ColliderComponentDataArgs) (extra : List Nat)
    (hk : extra.length ≤ 1000)
    (hpl : ∀ s ∈ args.mesh_path, s.length ≤ 1048576) :
    ColliderComponentData.mesh_path
        ⟨colliderLayout args extra, 26 + 2 * extra.length⟩ =
      args.mesh_path := by
  simp only [ColliderComponentData.mesh_path]
  rw [fieldEntryU_layout_16 args extra hk]
  cases hp : args.mesh_path with
  | none => simp [e16v, hp]
  | some p =>
    have hsl : p.length ≤ 1048576 := hpl p hp
    simp only [e16v, hp]
    rw [if_neg (by omega)]
    have hq1 : 26 + 2 * extra.length +
        (4 + (scalarSegs args.collider_type args.is_trigger args.size args.radius
            args.height).length +
          (moSeg args.material_name (some p)).length) =
        30 + 2 * extra.length +
          ((scalarSegs args.collider_type args.is_trigger args.size args.radius
              args.height).length +
            (moSeg args.material_name (some p)).length) := by
      omega
    rw [hq1, readLEU_layout_pre]
    rw [show (moSeg args.material_name (some p)).length =
      (moSeg args.material_name args.mesh_path).length by rw [hp]]
    rw [pre_read_po args p hp]
    have hq2 : 30 + 2 * extra.length +
        ((scalarSegs args.collider_type args.is_trigger args.size args.radius
            args.height).length +
          (moSeg args.material_name args.mesh_path).length) + 4 =
        30 + 2 * extra.length +
          ((scalarSegs args.collider_type args.is_trigger args.size args.radius
              args.height).length +
            (moSeg args.material_name args.mesh_path).length + 4) := by
      omega
    rw [hq2, readLEU_layout_pre, pre_read_mesh_len args p hp]
    rw [Nat.mod_eq_of_lt (by omega)]
    have hq3 : 30 + 2 * extra.length +
        ((scalarSegs args.collider_type args.is_trigger args.size args.radius
            args.height).length +
          (moSeg args.material_name args.mesh_path).length + 4) + 4 =
        30 + 2 * extra.length +
          ((scalarSegs args.collider_type args.is_trigger args.size args.radius
              args.height).length +
            (moSeg args.material_name args.mesh_path).length + 4 + 4) := by
      omega
    rw [hq3, readBytes_layout_pre, pre_read_mesh_bytes args p hp]

/-! The verifier accepts every built buffer. -/

theorem length_preOwned (args : ColliderComponentDataArgs) :
    (preOwned args).length =
      (scalarSegs args.collider_type args.is_trigger args.size args.radius
          args.height).length +
        (moSeg args.material_name args.mesh_path).length +
        (poSeg args.mesh_path).length + (optStrSeg args.mesh_path).length +
        (optStrSeg args.material_name).length := by
  simp [preOwned]
  omega

theorem visit_table_layout (args : ColliderComponentDataArgs) (extra : List Nat)
    (hk : extra.length ≤ 1000) :
    visit_table (colliderLayout args extra) (26 + 2 * extra.length) =
      .ok (8, 18 + 2 * extra.length) := by
  have hLen := length_colliderLayout args extra
  simp only [visit_table, checkRead]
  rw [if_pos (by omega)]
  rw [readLEU_layout_soffset args extra hk]
  have ha : asI32 (18 + 2 * extra.length) = ((18 + 2 * extra.length : Nat) : Int) := by
    simp only [asI32]
    split <;> omega
  simp only [Except.bind, bind, ha]
  rw [if_neg (by omega)]
  have hv : (((26 + 2 * extra.length : Nat) : Int) -
      ((18 + 2 * extra.length : Nat) : Int)).toNat = 8 := by omega
  rw [hv]
  rw [if_pos (by omega)]
  rw [readLEU_layout_vtLen args extra hk]
  simp only [Except.bind, bind]
  rw [if_neg (by omega), if_pos (by omega)]

theorem visit_scalar_layout_4 (args : ColliderComponentDataArgs) (extra : List Nat)
    (hk : extra.length ≤ 1000) :
    visit_scalar_field (colliderLayout args extra) (26 + 2 * extra.length) 8
      (18 + 2 * extra.length) 4 1 = .ok () := by
  have hLen := length_colliderLayout args extra
  have hpre := length_preOwned args
  simp only [visit_scalar_field]
  rw [if_pos (by omega)]
  rw [show (8 : Nat) + 4 = 12 from rfl, readLEU_layout_entry_e4v args extra]
  by_cases hc : args.collider_type = 0
  · rw [e4v, if_pos hc]
    simp
  · have h1 : (ctSeg args.collider_type).length = 1 := by simp [ctSeg, hc]
    have h2 : 4 ≤ (scalarSegs args.collider_type args.is_trigger args.size
        args.radius args.height).length + 3 := by
      simp only [scalarSegs, List.length_append]
      omega
    rw [e4v, if_neg hc]
    rw [if_neg (by omega), if_pos (by omega)]

theorem visit_scalar_layout_6 (args : ColliderComponentDataArgs) (extra : List Nat)
    (hk : extra.length ≤ 1000) :
    visit_scalar_field (colliderLayout args extra) (26 + 2 * extra.length) 8
      (18 + 2 * extra.length) 6 1 = .ok () := by
  have hLen := length_colliderLayout args extra
  have hpre := length_preOwned args
  simp only [visit_scalar_field]
  rw [if_pos (by omega)]
  rw [show (8 : Nat) + 6 = 14 from rfl, readLEU_layout_entry_e6v args extra]
  cases htr : args.is_trigger
  · rw [e6v, htr]
    simp
  · have h1 : (trSeg args.is_trigger).length = 1 := by simp [trSeg, htr]
    have hcle := length_ctSeg_le args.collider_type
    have h2 : (ctSeg args.collider_type).length + 2 ≤
        (scalarSegs args.collider_type args.is_trigger args.size args.radius
          args.height).length + 1 := by
      simp only [scalarSegs, List.length_append]
      omega
    rw [e6v, if_pos htr]
    rw [if_neg (by omega), if_pos (by omega)]

theorem visit_scalar_layout_8 (args : ColliderComponentDataArgs) (extra : List Nat)
    (hk : extra.length ≤ 1000) :
    visit_scalar_field (colliderLayout args extra) (26 + 2 * extra.length) 8
      (18 + 2 * extra.length) 8 12 = .ok () := by
  have hLen := length_colliderLayout args extra
  have hpre := length_preOwned args
  simp only [visit_scalar_field]
  rw [if_pos (by omega)]
  rw [show (8 : Nat) + 8 = 16 from rfl, readLEU_layout_entry_e8v args extra]
  cases hs : args.size with
  | none =>
    rw [e8v]
    simp [hs]
  | some v =>
    have h1 : (szSeg args.size).length = 12 := by simp [szSeg, hs]
    have h2 : (ctSeg args.collider_type).length + (trSeg args.is_trigger).length +
        24 ≤ (scalarSegs args.collider_type args.is_trigger args.size args.radius
          args.height).length + 12 := by
      simp only [scalarSegs, List.length_append]
      omega
    simp only [e8v, hs]
    rw [if_neg (by omega), if_pos (by omega)]

theorem visit_scalar_layout_10 (args : ColliderComponentDataArgs) (extra : List Nat)
    (hk : extra.length ≤ 1000) :
    visit_scalar_field (colliderLayout args extra) (26 + 2 * extra.length) 8
      (18 + 2 * extra.length) 10 4 = .ok () := by
  have hLen := length_colliderLayout args extra
  have hpre := length_preOwned args
  simp only [visit_scalar_field]
  rw [if_pos (by omega)]
  rw [show (8 : Nat) + 10 = 18 from rfl, readLEU_layout_entry_e10v args extra]
  by_cases hr : f32IsZero args.radius
  · rw [e10v, if_pos hr]
    simp
  · have h1 : (rdSeg args.radius).length = 4 := by simp [rdSeg, hr]
    have h2 : (ctSeg args.collider_type).length + (trSeg args.is_trigger).length +
        (szSeg args.size).length + 8 ≤
        (scalarSegs args.collider_type args.is_trigger args.size args.radius
          args.height).length + 4 := by
      simp only [scalarSegs, List.length_append]
      omega
    rw [e10v, if_neg hr]
    rw [if_neg (by omega), if_pos (by omega)]

theorem visit_scalar_layout_12 (args : ColliderComponentDataArgs) (extra : List Nat)
    (hk : extra.length ≤ 1000) :
    visit_scalar_field (colliderLayout args extra) (26 + 2 * extra.length) 8
      (18 + 2 * extra.length) 12 4 = .ok () := by
  have hLen := length_colliderLayout args extra
  have hpre := length_preOwned args
  simp only [visit_scalar_field]
  rw [if_pos (by omega)]
  rw [show (8 : Nat) + 12 = 20 from rfl, readLEU_layout_entry_e12v args extra]
  by_cases hh : f32IsZero args.height
  · rw [e12v, if_pos hh]
    simp
  · have h1 : (htSeg args.height).length = 4 := by simp [htSeg, hh]
    have h2 : (ctSeg args.collider_type).length + (trSeg args.is_trigger).length +
        (szSeg args.size).length + (rdSeg args.radius).length + 8 ≤
        (scalarSegs args.collider_type args.is_trigger args.size args.radius
          args.height).length + 4 := by
      simp only [scalarSegs, List.length_append]
      omega
    rw [e12v, if_neg hh]
    rw [if_neg (by omega), if_pos (by omega)]

theorem visit_string_layout_14 (args : ColliderComponentDataArgs) (extra : List Nat)
    (hk : extra.length ≤ 1000)
    (hml : ∀ s ∈ args.material_name, s.length ≤ 1048576)
    (hpl : ∀ s ∈ args.mesh_path, s.length ≤ 1048576) :
    visit_string_field (colliderLayout args extra) (26 + 2 * extra.length) 8
      (18 + 2 * extra.length) 14 = .ok () := by
  have hLen := length_colliderLayout args extra
  have hpre := length_preOwned args
  simp only [visit_string_field]
  rw [if_pos (by omega)]
  rw [show (8 : Nat) + 14 = 22 from rfl, readLEU_layout_entry_e14v args extra]
  cases hm : args.material_name with
  | none =>
    rw [e14v]
    simp [hm]
  | some s =>
    have hsl : s.length ≤ 1048576 := hml s hm
    have hps := length_optStrSeg_le args.mesh_path 1048576 hpl
    have hpo := length_poSeg_le args.mesh_path
    have hMO : (moSeg args.material_name args.mesh_path).length = 4 := by
      rw [hm]
      simp [moSeg]
    have hMS : (optStrSeg args.material_name).length = s.length + 5 := by
      rw [hm]
      simp [optStrSeg, strSeg]
      omega
    simp only [e14v, hm]
    rw [if_neg (by omega)]
    simp only [checkRead]
    have hq1 : 26 + 2 * extra.length +
        (4 + (scalarSegs args.collider_type args.is_trigger args.size args.radius
          args.height).length) =
        30 + 2 * extra.length +
          (scalarSegs args.collider_type args.is_trigger args.size args.radius
            args.height).length := by
      omega
    rw [hq1, readLEU_layout_pre, pre_read_mo args s hm,
      Nat.mod_eq_of_lt (by omega)]
    rw [if_pos (by omega)]
    simp only [Except.bind, bind]
    have hq2 : 30 + 2 * extra.length +
        (scalarSegs args.collider_type args.is_trigger args.size args.radius
          args.height).length +
        (4 + (poSeg args.mesh_path).length + (optStrSeg args.mesh_path).length) =
        30 + 2 * extra.length +
          ((scalarSegs args.collider_type args.is_trigger args.size args.radius
            args.height).length + 4 + (poSeg args.mesh_path).length +
            (optStrSeg args.mesh_path).length) := by
      omega
    rw [hq2, readLEU_layout_pre, pre_read_mat_len args s hm,
      Nat.mod_eq_of_lt (by omega)]
    rw [if_pos (by omega)]
    simp only [Except.bind, bind]
    rw [if_pos (by omega)]
    have hq3 : 30 + 2 * extra.length +
        ((scalarSegs args.collider_type args.is_trigger args.size args.radius
          args.height).length + 4 + (poSeg args.mesh_path).length +
          (optStrSeg args.mesh_path).length) + 4 + s.length =
        30 + 2 * extra.length +
          ((scalarSegs args.collider_type args.is_trigger args.size args.radius
            args.height).length + 4 + (poSeg args.mesh_path).length +
            (optStrSeg args.mesh_path).length + 4 + s.length) := by
      omega
    rw [hq3, readLEU_layout_pre, pre_read_mat_nul args s hm]
    simp

theorem visit_string_layout_16 (args : ColliderComponentDataArgs) (extra : List Nat)
    (hk : extra.length ≤ 1000)
    (hpl : ∀ s ∈ args.mesh_path, s.length ≤ 1048576) :
    visit_string_field (colliderLayout args extra) (26 + 2 * extra.length) 8
      (18 + 2 * extra.length) 16 = .ok () := by
  have hLen := length_colliderLayout args extra
  have hpre := length_preOwned args
  simp only [visit_string_field]
  rw [if_pos (by omega)]
  rw [show (8 : Nat) + 16 = 24 from rfl, readLEU_layout_entry_e16v args extra]
  cases hp : args.mesh_path with
  | none =>
    rw [e16v]
    simp [hp]
  | some p =>
    have hsl : p.length ≤ 1048576 := hpl p hp
    have hPO : (poSeg args.mesh_path).length = 4 := by
      rw [hp]
      simp [poSeg]
    have hPS : (optStrSeg args.mesh_path).length = p.length + 5 := by
      rw [hp]
      simp [optStrSeg, strSeg]
      omega
    have hmo := length_moSeg_le args.material_name args.mesh_path
    simp only [e16v, hp]
    rw [if_neg (by omega)]
    simp only [checkRead]
    have hq1 : 26 + 2 * extra.length +
        (4 + (scalarSegs args.collider_type args.is_trigger args.size args.radius
            args.height).length +
          (moSeg args.material_name (some p)).length) =
        30 + 2 * extra.length +
          ((scalarSegs args.collider_type args.is_trigger args.size args.radius
              args.height).length +
            (moSeg args.material_name args.mesh_path).length) := by
      rw [hp]
      omega
    rw [hq1, readLEU_layout_pre, pre_read_po args p hp]
    rw [if_pos (by omega)]
    simp only [Except.bind, bind]
    have hq2 : 30 + 2 * extra.length +
        ((scalarSegs args.collider_type args.is_trigger args.size args.radius
            args.height).length +
          (moSeg args.material_name args.mesh_path).length) + 4 =
        30 + 2 * extra.length +
          ((scalarSegs args.collider_type args.is_trigger args.size args.radius
              args.height).length +
            (moSeg args.material_name args.mesh_path).length + 4) := by
      omega
    rw [hq2, readLEU_layout_pre, pre_read_mesh_len args p hp,
      Nat.mod_eq_of_lt (by omega)]
    rw [if_pos (by omega)]
    simp only [Except.bind, bind]
    rw [if_pos (by omega)]
    have hq3 : 30 + 2 * extra.length +
        ((scalarSegs args.collider_type args.is_trigger args.size args.radius
            args.height).length +
          (moSeg args.material_name args.mesh_path).length + 4) + 4 + p.length =
        30 + 2 * extra.length +
          ((scalarSegs args.collider_type args.is_trigger args.size args.radius
              args.height).length +
            (moSeg args.material_name args.mesh_path).length + 4 + 4 +
            p.length) := by
      omega
    rw [hq3, readLEU_layout_pre, pre_read_mesh_nul args p hp]
    simp

theorem root_as_layout (args : ColliderComponentDataArgs) (extra : List Nat)
    (hk : extra.length ≤ 1000)
    (hml : ∀ s ∈ args.material_name, s.length ≤ 1048576)
    (hpl : ∀ s ∈ args.mesh_path, s.length ≤ 1048576) :
    root_as_collider_component_data (colliderLayout args extra) =
      .ok ⟨colliderLayout args extra, 26 + 2 * extra.length⟩ := by
  have hLen := length_colliderLayout args extra
  simp only [root_as_collider_component_data, checkRead]
  rw [if_pos (by omega)]
  rw [readLEU_layout_root args extra hk]
  simp only [Except.bind, bind, run_verifier]
  rw [visit_table_layout args extra hk]
  simp only [Except.bind, bind]
  rw [visit_scalar_layout_4 args extra hk]
  simp only [Except.bind, bind]
  rw [visit_scalar_layout_6 args extra hk]
  simp only [Except.bind, bind]
  rw [visit_scalar_layout_8 args extra hk]
  simp only [Except.bind, bind]
  rw [visit_scalar_layout_10 args extra hk]
  simp only [Except.bind, bind]
  rw [visit_scalar_layout_12 args extra hk]
  simp only [Except.bind, bind]
  rw [visit_string_layout_14 args extra hk hml hpl]
  simp only [Except.bind, bind]
  rw [visit_string_layout_16 args extra hk hpl]
  simp only [Except.bind, bind, pure, Except.pure]

/-! ## Inversion of the verifier

Success characterizations of each verifier step, used for the
verified-read-safety and corruption-rejection claims. -/

theorem checkRead_ok_iff (buf : List Nat) (p n v : Nat) :
    checkRead buf p n = .ok v ↔ p + n ≤ buf.length ∧ v = readLEU buf p n := by
  simp only [checkRead]
  split
  · simp [eq_comm]
    intro h
    assumption
  · simp
    intro h
    omega

theorem checkRead_err_bounds (buf : List Nat) (p n : Nat) (e : InvalidFlatbuffer)
    (h : checkRead buf p n = .error e) : isBoundsViolation e = true := by
  simp only [checkRead] at h
  split at h
  · exact absurd h (by simp)
  · cases h
    rfl

/-- Proof support: a present field's vtable entry. -/
def entryOf (buf : List Nat) (vt voff : Nat) : Nat := readLEU buf (vt + voff) 2

/-- Proof support: the absolute position of a string pointed to by the
forward-offset field at table offset `e`. -/
def spOf (buf : List Nat) (pos e : Nat) : Nat := pos + e + readLEU buf (pos + e) 4

theorem visit_table_ok_iff (buf : List Nat) (pos vt vl : Nat) :
    visit_table buf pos = .ok (vt, vl) ↔
      pos + 4 ≤ buf.length ∧
        ¬(pos : Int) - asI32 (readLEU buf pos 4) < 0 ∧
        vt = tableVtU buf pos ∧ vt + 2 ≤ buf.length ∧ vl = readLEU buf vt 2 ∧
        4 ≤ vl ∧ vt + vl ≤ buf.length := by
  simp only [visit_table, checkRead, tableVtU]
  by_cases h1 : pos + 4 ≤ buf.length
  · rw [if_pos h1]
    simp only [Except.bind, bind]
    by_cases h2 : (pos : Int) - asI32 (readLEU buf pos 4) < 0
    · rw [if_pos h2]
      simp [h2]
    · rw [if_neg h2]
      by_cases h3 : ((pos : Int) - asI32 (readLEU buf pos 4)).toNat + 2 ≤ buf.length
      · rw [if_pos h3]
        simp only [Except.bind, bind]
        by_cases h4 :
            readLEU buf ((pos : Int) - asI32 (readLEU buf pos 4)).toNat 2 < 4
        · rw [if_pos h4]
          constructor
          · intro h
            exact absurd h (by simp)
          · rintro ⟨-, -, hvt, -, hvl, h6, -⟩
            subst hvt
            subst hvl
            exact absurd h6 (by omega)
        · by_cases h5 : ((pos : Int) - asI32 (readLEU buf pos 4)).toNat +
              readLEU buf ((pos : Int) - asI32 (readLEU buf pos 4)).toNat 2 ≤
              buf.length
          · rw [if_neg h4, if_pos h5]
            constructor
            · intro h
              simp only [Except.ok.injEq, Prod.mk.injEq] at h
              obtain ⟨hvt, hvl⟩ := h
              subst hvt
              subst hvl
              exact ⟨h1, h2, rfl, h3, rfl, by omega, h5⟩
            · rintro ⟨-, -, hvt, -, hvl, -, -⟩
              subst hvt
              subst hvl
              rfl
          · rw [if_neg h4, if_neg h5]
            constructor
            · intro h
              exact absurd h (by simp)
            · rintro ⟨-, -, hvt, -, hvl, -, h7⟩
              subst hvt
              subst hvl
              exact absurd h7 h5
      · rw [if_neg h3]
        simp only [Except.bind, bind]
        constructor
        · intro h
          exact absurd h (by simp)
        · rintro ⟨-, -, hvt, h4', -, -, -⟩
          subst hvt
          exact absurd h4' h3
  · rw [if_neg h1]
    simp only [Except.bind, bind]
    constructor
    · intro h
      exact absurd h (by simp)
    · rintro ⟨h1', -⟩
      exact absurd h1' h1

theorem visit_scalar_ok_iff (buf : List Nat) (pos vt vl voff n : Nat) :
    visit_scalar_field buf pos vt vl voff n = .ok () ↔
      (voff + 2 ≤ vl →
        entryOf buf vt voff = 0 ∨ pos + entryOf buf vt voff + n ≤ buf.length) := by
  simp only [visit_scalar_field, entryOf]
  by_cases h1 : voff + 2 ≤ vl
  · rw [if_pos h1]
    by_cases h2 : readLEU buf (vt + voff) 2 = 0
    · rw [if_pos h2]
      simp [h1, h2]
    · rw [if_neg h2]
      by_cases h3 : pos + readLEU buf (vt + voff) 2 + n ≤ buf.length
      · rw [if_pos h3]
        simp [h1, h2, h3]
      · rw [if_neg h3]
        simp [h1, h2, h3]
  · rw [if_neg h1]
    simp [h1]

theorem visit_scalar_err_bounds (buf : List Nat) (pos vt vl voff n : Nat)
    (e : InvalidFlatbuffer) (h : visit_scalar_field buf pos vt vl voff n = .error e) :
    isBoundsViolation e = true := by
  simp only [visit_scalar_field] at h
  by_cases h1 : voff + 2 ≤ vl
  · rw [if_pos h1] at h
    by_cases h2 : readLEU buf (vt + voff) 2 = 0
    · rw [if_pos h2] at h
      exact absurd h (by simp)
    · rw [if_neg h2] at h
      by_cases h3 : pos + readLEU buf (vt + voff) 2 + n ≤ buf.length
      · rw [if_pos h3] at h
        exact absurd h (by simp)
      · rw [if_neg h3] at h
        cases h
        rfl
  · rw [if_neg h1] at h
    exact absurd h (by simp)

theorem visit_string_ok_iff (buf : List Nat) (pos vt vl voff : Nat) :
    visit_string_field buf pos vt vl voff = .ok () ↔
      (voff + 2 ≤ vl →
        entryOf buf vt voff = 0 ∨
          (pos + entryOf buf vt voff + 4 ≤ buf.length ∧
            spOf buf pos (entryOf buf vt voff) + 4 ≤ buf.length ∧
            spOf buf pos (entryOf buf vt voff) + 4 +
                readLEU buf (spOf buf pos (entryOf buf vt voff)) 4 + 1 ≤
              buf.length ∧
            readLEU buf
              (spOf buf pos (entryOf buf vt voff) + 4 +
                readLEU buf (spOf buf pos (entryOf buf vt voff)) 4) 1 = 0)) := by
  simp only [visit_string_field, checkRead, entryOf, spOf]
  by_cases h1 : voff + 2 ≤ vl
  · rw [if_pos h1]
    by_cases h2 : readLEU buf (vt + voff) 2 = 0
    · rw [if_pos h2]
      simp [h1, h2]
    · rw [if_neg h2]
      by_cases h3 : pos + readLEU buf (vt + voff) 2 + 4 ≤ buf.length
      · rw [if_pos h3]
        simp only [Except.bind, bind]
        by_cases h4 : pos + readLEU buf (vt + voff) 2 +
            readLEU buf (pos + readLEU buf (vt + voff) 2) 4 + 4 ≤ buf.length
        · rw [if_pos h4]
          simp only [Except.bind, bind]
          by_cases h5 : pos + readLEU buf (vt + voff) 2 +
              readLEU buf (pos + readLEU buf (vt + voff) 2) 4 + 4 +
                readLEU buf (pos + readLEU buf (vt + voff) 2 +
                  readLEU buf (pos + readLEU buf (vt + voff) 2) 4) 4 + 1 ≤
              buf.length
          · rw [if_pos h5]
            by_cases h6 : readLEU buf
                (pos + readLEU buf (vt + voff) 2 +
                  readLEU buf (pos + readLEU buf (vt + voff) 2) 4 + 4 +
                  readLEU buf (pos + readLEU buf (vt + voff) 2 +
                    readLEU buf (pos + readLEU buf (vt + voff) 2) 4) 4) 1 = 0
            · rw [if_pos h6]
              simp [h1, h2, h3, h4, h5, h6]
            · rw [if_neg h6]
              simp [h1, h2, h3, h4, h5, h6]
          · rw [if_neg h5]
            simp [h1, h2, h3, h4, h5]
        · rw [if_neg h4]
          simp [h1, h2, h3, h4]
      · rw [if_neg h3]
        simp only [Except.bind, bind]
        simp [h1, h2, h3]
  · rw [if_neg h1]
    simp [h1]

theorem bind_ok_iff {α β : Type} (x : Except InvalidFlatbuffer α)
    (f : α → Except InvalidFlatbuffer β) (b : β) :
    (x >>= f) = .ok b ↔ ∃ a, x = .ok a ∧ f a = .ok b := by
  cases x <;> simp [Bind.bind, Except.bind]

theorem run_verifier_ok_iff (buf : List Nat) (pos : Nat) :
    run_verifier buf pos = .ok () ↔
      ∃ vt vl, visit_table buf pos = .ok (vt, vl) ∧
        visit_scalar_field buf pos vt vl 4 1 = .ok () ∧
        visit_scalar_field buf pos vt vl 6 1 = .ok () ∧
        visit_scalar_field buf pos vt vl 8 12 = .ok () ∧
        visit_scalar_field buf pos vt vl 10 4 = .ok () ∧
        visit_scalar_field buf pos vt vl 12 4 = .ok () ∧
        visit_string_field buf pos vt vl 14 = .ok () ∧
        visit_string_field buf pos vt vl 16 = .ok () := by
  constructor
  · intro h
    simp only [run_verifier] at h
    obtain ⟨tv, h1, h⟩ := (bind_ok_iff _ _ _).mp h
    obtain ⟨vt, vl⟩ := tv
    obtain ⟨u, h2, h⟩ := (bind_ok_iff _ _ _).mp h
    obtain ⟨u, h3, h⟩ := (bind_ok_iff _ _ _).mp h
    obtain ⟨u, h4, h⟩ := (bind_ok_iff _ _ _).mp h
    obtain ⟨u, h5, h⟩ := (bind_ok_iff _ _ _).mp h
    obtain ⟨u, h6, h⟩ := (bind_ok_iff _ _ _).mp h
    obtain ⟨u, h7, h⟩ := (bind_ok_iff _ _ _).mp h
    exact ⟨vt, vl, h1, h2, h3, h4, h5, h6, h7, h⟩
  · rintro ⟨vt, vl, h1, h2, h3, h4, h5, h6, h7, h8⟩
    simp only [run_verifier, h1, Except.bind, bind, h2, h3, h4, h5, h6, h7, h8]

theorem root_as_ok_iff (buf : List Nat) (d : ColliderComponentData) :
    root_as_collider_component_data buf = .ok d ↔
      4 ≤ buf.length ∧ d.buf = buf ∧ d.loc = readLEU buf 0 4 ∧
        run_verifier buf (readLEU buf 0 4) = .ok () := by
  simp only [root_as_collider_component_data, checkRead]
  by_cases h1 : 0 + 4 ≤ buf.length
  · rw [if_pos h1]
    simp only [Except.bind, bind]
    constructor
    · intro h
      obtain ⟨u, h2, h3⟩ := (bind_ok_iff _ _ _).mp h
      simp only [pure, Except.pure, Except.ok.injEq] at h3
      subst h3
      exact ⟨by omega, rfl, rfl, h2⟩
    · rintro ⟨-, hb, hl, hrv⟩
      obtain ⟨db, dl⟩ := d
      simp only at hb hl
      subst hb
      subst hl
      rw [hrv]
      simp [pure, Except.pure, Except.bind, bind]
  · rw [if_neg h1]
    constructor
    · intro h
      simp only [Except.bind, bind] at h
      exact absurd h (by simp)
    · rintro ⟨h2, -⟩
      exact absurd (by omega : 0 + 4 ≤ buf.length) h1

/-! ## Bounds-checked twins of the accessors

Each checked accessor performs exactly the reads of its unchecked
counterpart, but through `readLE`; `none` marks an out-of-bounds read.
They make the claim "after successful verification the unchecked reads
are in-bounds" a statement: on a verified view the checked twin returns
`some` of the unchecked value. -/

def fieldEntryC (buf : List Nat) (pos voff : Nat) : Option Nat :=
  match readLE buf pos 4 with
  | none => none
  | some s =>
    if (pos : Int) - asI32 s < 0 then none
    else
      match readLE buf ((pos : Int) - asI32 s).toNat 2 with
      | none => none
      | some vtLen =>
        if voff + 2 ≤ vtLen then
          readLE buf (((pos : Int) - asI32 s).toNat + voff) 2
        else some 0

def tableGetScalarC (buf : List Nat) (pos voff n dflt : Nat) : Option Nat :=
  match fieldEntryC buf pos voff with
  | none => none
  | some 0 => some dflt
  | some e => readLE buf (pos + e) n

def ColliderComponentData.collider_typeC (d : ColliderComponentData) : Option Int :=
  (tableGetScalarC d.buf d.loc 4 1 0).map asI8

def ColliderComponentData.is_triggerC (d : ColliderComponentData) : Option Bool :=
  (tableGetScalarC d.buf d.loc 6 1 0).map (· != 0)

def ColliderComponentData.sizeC (d : ColliderComponentData) : Option (Option Vec3) :=
  match fieldEntryC d.buf d.loc 8 with
  | none => none
  | some 0 => some none
  | some e =>
    if d.loc + e + 12 ≤ d.buf.length then some (some (vec3Follow d.buf (d.loc + e)))
    else none

def ColliderComponentData.radiusC (d : ColliderComponentData) : Option Nat :=
  tableGetScalarC d.buf d.loc 10 4 0

def ColliderComponentData.heightC (d : ColliderComponentData) : Option Nat :=
  tableGetScalarC d.buf d.loc 12 4 0

def ColliderComponentData.material_nameC (d : ColliderComponentData) :
    Option (Option (List Nat)) :=
  match fieldEntryC d.buf d.loc 14 with
  | none => none
  | some 0 => some none
  | some e =>
    match readLE d.buf (d.loc + e) 4 with
    | none => none
    | some off =>
      match readLE d.buf (d.loc + e + off) 4 with
      | none => none
      | some sl =>
        if d.loc + e + off + 4 + sl ≤ d.buf.length then
          some (some (readBytes d.buf (d.loc + e + off + 4) sl))
        else none

def ColliderComponentData.mesh_pathC (d : ColliderComponentData) :
    Option (Option (List Nat)) :=
  match fieldEntryC d.buf d.loc 16 with
  | none => none
  | some 0 => some none
  | some e =>
    match readLE d.buf (d.loc + e) 4 with
    | none => none
    | some off =>
      match readLE d.buf (d.loc + e + off) 4 with
      | none => none
      | some sl =>
        if d.loc + e + off + 4 + sl ≤ d.buf.length then
          some (some (readBytes d.buf (d.loc + e + off + 4) sl))
        else none

theorem fieldEntryC_eq (buf : List Nat) (pos voff : Nat)
    (h1 : pos + 4 ≤ buf.length)
    (h2 : ¬(pos : Int) - asI32 (readLEU buf pos 4) < 0)
    (h4 : tableVtU buf pos + 2 ≤ buf.length)
    (h7 : tableVtU buf pos + readLEU buf (tableVtU buf pos) 2 ≤ buf.length) :
    fieldEntryC buf pos voff = some (fieldEntryU buf pos voff) := by
  simp only [tableVtU] at h4 h7
  simp only [fieldEntryC, fieldEntryU, tableVtU, readLE]
  rw [if_pos h1]
  simp only [if_neg h2]
  rw [if_pos h4]
  simp only []
  by_cases hg : voff + 2 ≤ readLEU buf ((pos : Int) - asI32 (readLEU buf pos 4)).toNat 2
  · rw [if_pos hg, if_pos hg, if_pos (by omega)]
  · rw [if_neg hg, if_neg hg]

theorem tableGetScalarC_eq (buf : List Nat) (pos voff n dflt : Nat)
    (h1 : pos + 4 ≤ buf.length)
    (h2 : ¬(pos : Int) - asI32 (readLEU buf pos 4) < 0)
    (h4 : tableVtU buf pos + 2 ≤ buf.length)
    (h7 : tableVtU buf pos + readLEU buf (tableVtU buf pos) 2 ≤ buf.length)
    (hok : visit_scalar_field buf pos (tableVtU buf pos)
      (readLEU buf (tableVtU buf pos) 2) voff n = .ok ()) :
    tableGetScalarC buf pos voff n dflt =
      some ((tableGetScalarU buf pos voff n (some dflt)).getD dflt) := by
  rw [tableGetScalarC, fieldEntryC_eq buf pos voff h1 h2 h4 h7]
  by_cases he : fieldEntryU buf pos voff = 0
  · simp [he, tableGetScalarU]
  · have hg : voff + 2 ≤ readLEU buf (tableVtU buf pos) 2 := by
      by_contra hg
      exact he (by simp [fieldEntryU, if_neg hg])
    have hent : fieldEntryU buf pos voff = entryOf buf (tableVtU buf pos) voff := by
      simp only [fieldEntryU, entryOf]
      rw [if_pos hg]
    have hbnd : pos + fieldEntryU buf pos voff + n ≤ buf.length := by
      rcases (visit_scalar_ok_iff buf pos (tableVtU buf pos)
        (readLEU buf (tableVtU buf pos) 2) voff n).mp hok hg with h0 | hb
      · rw [hent] at he
        exact absurd h0 he
      · rw [hent]
        exact hb
    cases hev : fieldEntryU buf pos voff with
    | zero => exact absurd hev he
    | succ k =>
      rw [hev] at hbnd
      simp only [tableGetScalarU, hev]
      rw [if_neg (by omega)]
      simp [readLE, hbnd]

theorem fieldEntryU_present_guard (buf : List Nat) (pos voff : Nat)
    (he : ¬fieldEntryU buf pos voff = 0) :
    voff + 2 ≤ readLEU buf (tableVtU buf pos) 2 := by
  by_contra hg
  exact he (by simp [fieldEntryU, if_neg hg])

theorem fieldEntryU_eq_entryOf (buf : List Nat) (pos voff : Nat)
    (hg : voff + 2 ≤ readLEU buf (tableVtU buf pos) 2) :
    fieldEntryU buf pos voff = entryOf buf (tableVtU buf pos) voff := by
  simp only [fieldEntryU, entryOf]
  rw [if_pos hg]

theorem scalar_present_bound (buf : List Nat) (pos voff n : Nat)
    (hok : visit_scalar_field buf pos (tableVtU buf pos)
      (readLEU buf (tableVtU buf pos) 2) voff n = .ok ())
    (he : ¬fieldEntryU buf pos voff = 0) :
    pos + fieldEntryU buf pos voff + n ≤ buf.length := by
  have hg := fieldEntryU_present_guard buf pos voff he
  have hent := fieldEntryU_eq_entryOf buf pos voff hg
  rcases (visit_scalar_ok_iff buf pos (tableVtU buf pos)
    (readLEU buf (tableVtU buf pos) 2) voff n).mp hok hg with h0 | hb
  · rw [hent] at he
    exact absurd h0 he
  · rw [hent]
    exact hb

theorem string_present_bounds (buf : List Nat) (pos voff : Nat)
    (hok : visit_string_field buf pos (tableVtU buf pos)
      (readLEU buf (tableVtU buf pos) 2) voff = .ok ())
    (he : ¬fieldEntryU buf pos voff = 0) :
    pos + fieldEntryU buf pos voff + 4 ≤ buf.length ∧
      spOf buf pos (fieldEntryU buf pos voff) + 4 ≤ buf.length ∧
      spOf buf pos (fieldEntryU buf pos voff) + 4 +
          readLEU buf (spOf buf pos (fieldEntryU buf pos voff)) 4 + 1 ≤
        buf.length ∧
      readLEU buf (spOf buf pos (fieldEntryU buf pos voff) + 4 +
        readLEU buf (spOf buf pos (fieldEntryU buf pos voff)) 4) 1 = 0 := by
  have hg := fieldEntryU_present_guard buf pos voff he
  have hent := fieldEntryU_eq_entryOf buf pos voff hg
  rcases (visit_string_ok_iff buf pos (tableVtU buf pos)
    (readLEU buf (tableVtU buf pos) 2) voff).mp hok hg with h0 | hb
  · rw [hent] at he
    exact absurd h0 he
  · rw [hent]
    exact hb

theorem sizeC_agree (buf : List Nat) (pos : Nat)
    (h1 : pos + 4 ≤ buf.length)
    (h2 : ¬(pos : Int) - asI32 (readLEU buf pos 4) < 0)
    (h4 : tableVtU buf pos + 2 ≤ buf.length)
    (h7 : tableVtU buf pos + readLEU buf (tableVtU buf pos) 2 ≤ buf.length)
    (hok : visit_scalar_field buf pos (tableVtU buf pos)
      (readLEU buf (tableVtU buf pos) 2) 8 12 = .ok ()) :
    ColliderComponentData.sizeC ⟨buf, pos⟩ =
      some (ColliderComponentData.size ⟨buf, pos⟩) := by
  simp only [ColliderComponentData.sizeC, ColliderComponentData.size]
  rw [fieldEntryC_eq buf pos 8 h1 h2 h4 h7]
  by_cases he : fieldEntryU buf pos 8 = 0
  · simp [he]
  · have hb := scalar_present_bound buf pos 8 12 hok he
    cases hev : fieldEntryU buf pos 8 with
    | zero => exact absurd hev he
    | succ k =>
      rw [hev] at hb
      simp only []
      rw [if_pos hb, if_neg (by omega)]

theorem material_nameC_agree (buf : List Nat) (pos : Nat)
    (h1 : pos + 4 ≤ buf.length)
    (h2 : ¬(pos : Int) - asI32 (readLEU buf pos 4) < 0)
    (h4 : tableVtU buf pos + 2 ≤ buf.length)
    (h7 : tableVtU buf pos + readLEU buf (tableVtU buf pos) 2 ≤ buf.length)
    (hok : visit_string_field buf pos (tableVtU buf pos)
      (readLEU buf (tableVtU buf pos) 2) 14 = .ok ()) :
    ColliderComponentData.material_nameC ⟨buf, pos⟩ =
      some (ColliderComponentData.material_name ⟨buf, pos⟩) := by
  simp only [ColliderComponentData.material_nameC,
    ColliderComponentData.material_name]
  rw [fieldEntryC_eq buf pos 14 h1 h2 h4 h7]
  by_cases he : fieldEntryU buf pos 14 = 0
  · simp [he]
  · have hb := string_present_bounds buf pos 14 hok he
    cases hev : fieldEntryU buf pos 14 with
    | zero => exact absurd hev he
    | succ k =>
      rw [hev] at hb
      simp only [spOf] at hb
      obtain ⟨hb1, hb2, hb3, -⟩ := hb
      simp only [readLE]
      rw [if_pos hb1]
      simp only []
      rw [if_pos hb2]
      simp only []
      rw [if_pos (by omega), if_neg (by omega)]

theorem mesh_pathC_agree (buf : List Nat) (pos : Nat)
    (h1 : pos + 4 ≤ buf.length)
    (h2 : ¬(pos : Int) - asI32 (readLEU buf pos 4) < 0)
    (h4 : tableVtU buf pos + 2 ≤ buf.length)
    (h7 : tableVtU buf pos + readLEU buf (tableVtU buf pos) 2 ≤ buf.length)
    (hok : visit_string_field buf pos (tableVtU buf pos)
      (readLEU buf (tableVtU buf pos) 2) 16 = .ok ()) :
    ColliderComponentData.mesh_pathC ⟨buf, pos⟩ =
      some (ColliderComponentData.mesh_path ⟨buf, pos⟩) := by
  simp only [ColliderComponentData.mesh_pathC, ColliderComponentData.mesh_path]
  rw [fieldEntryC_eq buf pos 16 h1 h2 h4 h7]
  by_cases he : fieldEntryU buf pos 16 = 0
  · simp [he]
  · have hb := string_present_bounds buf pos 16 hok he
    cases hev : fieldEntryU buf pos 16 with
    | zero => exact absurd hev he
    | succ k =>
      rw [hev] at hb
      simp only [spOf] at hb
      obtain ⟨hb1, hb2, hb3, -⟩ := hb
      simp only [readLE]
      rw [if_pos hb1]
      simp only []
      rw [if_pos hb2]
      simp only []
      rw [if_pos (by omega), if_neg (by omega)]

/-! ## Claim theorems -/

/-- C4: verified-read safety — on every byte buffer accepted by
`root_as_collider_component_data`, each of the seven accessors performs
only in-bounds reads: its bounds-checked twin succeeds and returns exactly
the unchecked accessor's value, so the unsafe unchecked reads inside the
accessors are safe with no further bounds checks. -/
theorem c4_verified_read_safety (buf : List Nat) (d : ColliderComponentData)
    (h : root_as_collider_component_data buf = .ok d) :
    d.collider_typeC = some d.collider_type ∧
      d.is_triggerC = some d.is_trigger ∧
      d.sizeC = some d.size ∧
      d.radiusC = some d.radius ∧
      d.heightC = some d.height ∧
      d.material_nameC = some d.material_name ∧
      d.mesh_pathC = some d.mesh_path := by
  obtain ⟨hlen, hbuf, hloc, hrv⟩ := (root_as_ok_iff buf d).mp h
  subst hbuf
  obtain ⟨vt, vl, htab, hs4, hs6, hs8, hs10, hs12, hst14, hst16⟩ :=
    (run_verifier_ok_iff _ _).mp hrv
  obtain ⟨t1, t2, t3, t4, t5, t6, t7⟩ := (visit_table_ok_iff _ _ _ _).mp htab
  subst t3
  subst t5
  rw [← hloc] at t1 t2 t4 t7 hs4 hs6 hs8 hs10 hs12 hst14 hst16
  refine ⟨?_, ?_, ?_, ?_, ?_, ?_, ?_⟩
  · rw [ColliderComponentData.collider_typeC,
      tableGetScalarC_eq d.buf d.loc 4 1 0 t1 t2 t4 t7 hs4]
    rfl
  · rw [ColliderComponentData.is_triggerC,
      tableGetScalarC_eq d.buf d.loc 6 1 0 t1 t2 t4 t7 hs6]
    rfl
  · exact sizeC_agree d.buf d.loc t1 t2 t4 t7 hs8
  · rw [ColliderComponentData.radiusC,
      tableGetScalarC_eq d.buf d.loc 10 4 0 t1 t2 t4 t7 hs10]
    rfl
  · rw [ColliderComponentData.heightC,
      tableGetScalarC_eq d.buf d.loc 12 4 0 t1 t2 t4 t7 hs12]
    rfl
  · exact material_nameC_agree d.buf d.loc t1 t2 t4 t7 hst14
  · exact mesh_pathC_agree d.buf d.loc t1 t2 t4 t7 hst16

/-- Witness for C4 at a concrete verified buffer. -/
theorem c4_verified_read_safety_witness :
    root_as_collider_component_data
        (buildColliderComponentDataBuffer ⟨1, true, none, 0, 0, none, none⟩) =
      .ok ⟨buildColliderComponentDataBuffer ⟨1, true, none, 0, 0, none, none⟩, 26⟩ ∧
      (⟨buildColliderComponentDataBuffer ⟨1, true, none, 0, 0, none, none⟩, 26⟩ :
          ColliderComponentData).collider_typeC =
        some (⟨buildColliderComponentDataBuffer ⟨1, true, none, 0, 0, none, none⟩,
          26⟩ : ColliderComponentData).collider_type :=
  ⟨by rfl,
    (c4_verified_read_safety
        (buildColliderComponentDataBuffer ⟨1, true, none, 0, 0, none, none⟩)
        ⟨buildColliderComponentDataBuffer ⟨1, true, none, 0, 0, none, none⟩, 26⟩
        (by rfl)).1⟩

/-- C10: the scalar accessors are total — because each passes a `Some`
default to `Table::get`, the `Option` that `collider_type()`,
`is_trigger()`, `radius()` and `height()` `unwrap` is `some` for every
table view of any buffer, so the `unwrap` can never panic. -/
theorem c10_scalar_accessors_total (buf : List Nat) (pos : Nat) :
    (tableGetScalarU buf pos 4 1 (some 0)).isSome = true ∧
      (tableGetScalarU buf pos 6 1 (some 0)).isSome = true ∧
      (tableGetScalarU buf pos 10 4 (some 0)).isSome = true ∧
      (tableGetScalarU buf pos 12 4 (some 0)).isSome = true := by
  refine ⟨?_, ?_, ?_, ?_⟩ <;>
    · simp only [tableGetScalarU]
      split <;> simp

/-- C5: decoding a `ColliderType` from the wire never fails and always
lands in the `i8` range; `variant_name` is `some` of the matching name on
the four declared variants `0..3` and `none` — not an error — on every
other `i8` value. -/
theorem c5_unknown_variant_tolerance :
    (∀ (buf : List Nat) (loc : Nat),
        -128 ≤ (ColliderType.follow buf loc).v ∧
          (ColliderType.follow buf loc).v ≤ 127) ∧
      (ColliderType.variant_name ⟨0⟩ = some "Box" ∧
        ColliderType.variant_name ⟨1⟩ = some "Sphere" ∧
        ColliderType.variant_name ⟨2⟩ = some "Capsule" ∧
        ColliderType.variant_name ⟨3⟩ = some "Mesh") ∧
      (∀ v : Int, -128 ≤ v → v ≤ 127 → ¬(0 ≤ v ∧ v ≤ 3) →
        ColliderType.variant_name ⟨v⟩ = none) := by
  refine ⟨?_, ⟨rfl, rfl, rfl, rfl⟩, ?_⟩
  · intro buf loc
    simp only [ColliderType.follow, asI8]
    split <;> omega
  · intro v h1 h2 h3
    have e0 : ¬v = 0 := by omega
    have e1 : ¬v = 1 := by omega
    have e2 : ¬v = 2 := by omega
    have e3 : ¬v = 3 := by omega
    simp [ColliderType.variant_name, ColliderType.Box, ColliderType.Sphere,
      ColliderType.Capsule, ColliderType.Mesh, ColliderType.mk.injEq, e0, e1,
      e2, e3]

/-- Witness for C5 at the unknown wire value 5. -/
theorem c5_unknown_variant_tolerance_witness :
    ColliderType.variant_name ⟨5⟩ = none :=
  c5_unknown_variant_tolerance.2.2 5 (by omega) (by omega) (by omega)

/-- C7: verification and reads are deterministic and pure — a second
verification of the same bytes returns the same outcome, two verified
views of the same buffer are identical with identical field values, and
the view borrows the buffer unchanged (no mutation). -/
theorem c7_idempotent_pure_reads (buf : List Nat) :
    root_as_collider_component_data buf = root_as_collider_component_data buf ∧
      (∀ d₁ d₂ : ColliderComponentData,
        root_as_collider_component_data buf = .ok d₁ →
          root_as_collider_component_data buf = .ok d₂ →
          d₁ = d₂ ∧ d₁.buf = buf ∧
            d₁.collider_type = d₂.collider_type ∧
            d₁.is_trigger = d₂.is_trigger ∧ d₁.size = d₂.size ∧
            d₁.radius = d₂.radius ∧ d₁.height = d₂.height ∧
            d₁.material_name = d₂.material_name ∧
            d₁.mesh_path = d₂.mesh_path) := by
  refine ⟨rfl, ?_⟩
  intro d₁ d₂ h1 h2
  rw [h1] at h2
  cases h2
  exact ⟨rfl, ((root_as_ok_iff buf d₁).mp h1).2.1, rfl, rfl, rfl, rfl, rfl,
    rfl, rfl⟩

/-- Witness for C7 at a concrete verified buffer. -/
theorem c7_idempotent_pure_reads_witness :
    (⟨buildColliderComponentDataBuffer ⟨0, false, none, 0, 0, none, none⟩, 26⟩ :
        ColliderComponentData).buf =
      buildColliderComponentDataBuffer ⟨0, false, none, 0, 0, none, none⟩ :=
  ((c7_idempotent_pure_reads
        (buildColliderComponentDataBuffer ⟨0, false, none, 0, 0, none, none⟩)).2
      ⟨buildColliderComponentDataBuffer ⟨0, false, none, 0, 0, none, none⟩, 26⟩
      ⟨buildColliderComponentDataBuffer ⟨0, false, none, 0, 0, none, none⟩, 26⟩
      (by rfl) (by rfl)).2.1

/-- IEEE-754 `==` on `f32` bit patterns, totalized reflexively: equal bit
patterns, or both zero patterns (`+0.0 == -0.0`). -/
def f32ValEq (a b : Nat) : Prop := a = b ∨ (f32IsZero a ∧ f32IsZero b)

/-- C1: round-trip — building a buffer with `create` from any valid
argument assignment, verifying it with `root_as_collider_component_data`
and invoking each typed accessor returns exactly the supplied values:
optional fields given as `None` read back as `None`, and scalars written
with (IEEE-equal to) their default read back as the declared default. -/
theorem c1_round_trip (args : ColliderComponentDataArgs)
    (hct1 : -128 ≤ args.collider_type) (hct2 : args.collider_type ≤ 127)
    (hrd : args.radius < 4294967296) (hht : args.height < 4294967296)
    (hsz : ∀ v ∈ args.size,
      v.x < 4294967296 ∧ v.y < 4294967296 ∧ v.z < 4294967296)
    (hml : ∀ s ∈ args.material_name, s.length ≤ 1048576)
    (hpl : ∀ s ∈ args.mesh_path, s.length ≤ 1048576) :
    ∃ d : ColliderComponentData,
      root_as_collider_component_data (buildColliderComponentDataBuffer args) =
          .ok d ∧
        d.collider_type = args.collider_type ∧
        d.is_trigger = args.is_trigger ∧
        d.size = args.size ∧
        d.material_name = args.material_name ∧
        d.mesh_path = args.mesh_path ∧
        d.radius = (if f32IsZero args.radius then 0 else args.radius) ∧
        d.height = (if f32IsZero args.height then 0 else args.height) ∧
        f32ValEq d.radius args.radius ∧ f32ValEq d.height args.height := by
  refine ⟨⟨colliderLayout args [], 26 + 2 * ([] : List Nat).length⟩, ?_, ?_, ?_,
    ?_, ?_, ?_, ?_, ?_, ?_, ?_⟩
  · rw [buildColliderComponentDataBuffer, buildWith_eq]
    exact root_as_layout args [] (by simp) hml hpl
  · exact collider_type_layout args [] (by simp) hct1 hct2
  · exact is_trigger_layout args [] (by simp)
  · exact size_layout args [] (by simp) hsz
  · exact material_name_layout args [] (by simp) hml hpl
  · exact mesh_path_layout args [] (by simp) hpl
  · exact radius_layout args [] (by simp) hrd
  · exact height_layout args [] (by simp) hht
  · rw [show (⟨colliderLayout args [], 26 + 2 * ([] : List Nat).length⟩ :
        ColliderComponentData).radius =
        (if f32IsZero args.radius then 0 else args.radius) from
      radius_layout args [] (by simp) hrd]
    by_cases hr : f32IsZero args.radius
    · rw [if_pos hr]
      exact Or.inr ⟨by simp [f32IsZero], hr⟩
    · rw [if_neg hr]
      exact Or.inl rfl
  · rw [show (⟨colliderLayout args [], 26 + 2 * ([] : List Nat).length⟩ :
        ColliderComponentData).height =
        (if f32IsZero args.height then 0 else args.height) from
      height_layout args [] (by simp) hht]
    by_cases hh : f32IsZero args.height
    · rw [if_pos hh]
      exact Or.inr ⟨by simp [f32IsZero], hh⟩
    · rw [if_neg hh]
      exact Or.inl rfl

/-- Witness for C1 at the spec's concrete scenario: `Sphere`, trigger,
radius `2.5` (bits `0x40200000`), height `0.0`, material `"rubber"`. -/
theorem c1_round_trip_witness :
    ∃ d : ColliderComponentData,
      root_as_collider_component_data (buildColliderComponentDataBuffer
          ⟨1, true, none, 1075838976, 0,
            some [114, 117, 98, 98, 101, 114], none⟩) = .ok d ∧
        d.collider_type = 1 ∧
        d.is_trigger = true ∧
        d.size = none ∧
        d.material_name = some [114, 117, 98, 98, 101, 114] ∧
        d.mesh_path = none ∧
        d.radius = (if f32IsZero 1075838976 then 0 else 1075838976) ∧
        d.height = (if f32IsZero 0 then 0 else 0) ∧
        f32ValEq d.radius 1075838976 ∧ f32ValEq d.height 0 :=
  c1_round_trip ⟨1, true, none, 1075838976, 0,
      some [114, 117, 98, 98, 101, 114], none⟩
    (by decide) (by decide) (by decide) (by decide)
    (by intro v hv; cases hv)
    (by intro s hs; cases hs; decide)
    (by intro s hs; cases hs)

/-- C2: default omission — writing a scalar field with exactly its declared
default (`Box`, `false`, `0.0`, `0.0`) writes nothing to the builder, so
the built table's vtable entry for that slot is `0` (absent); and on any
table whose vtable marks a scalar slot absent, the accessor returns the
declared default rather than failing. -/
theorem c2_default_omission :
    (∀ b : FlatBufferBuilder, add_collider_type b 0 = b) ∧
      (∀ b : FlatBufferBuilder, add_is_trigger b false = b) ∧
      (∀ (b : FlatBufferBuilder) (r : Nat), f32IsZero r → add_radius b r = b) ∧
      (∀ (b : FlatBufferBuilder) (h : Nat), f32IsZero h → add_height b h = b) ∧
      (∀ args : ColliderComponentDataArgs,
        (args.collider_type = 0 →
          fieldEntryU (buildColliderComponentDataBuffer args) 26 4 = 0) ∧
          (args.is_trigger = false →
            fieldEntryU (buildColliderComponentDataBuffer args) 26 6 = 0) ∧
          (f32IsZero args.radius →
            fieldEntryU (buildColliderComponentDataBuffer args) 26 10 = 0) ∧
          (f32IsZero args.height →
            fieldEntryU (buildColliderComponentDataBuffer args) 26 12 = 0)) ∧
      (∀ (buf : List Nat) (pos : Nat),
        (fieldEntryU buf pos 4 = 0 →
          ColliderComponentData.collider_type ⟨buf, pos⟩ = 0) ∧
          (fieldEntryU buf pos 6 = 0 →
            ColliderComponentData.is_trigger ⟨buf, pos⟩ = false) ∧
          (fieldEntryU buf pos 10 = 0 →
            ColliderComponentData.radius ⟨buf, pos⟩ = 0) ∧
          (fieldEntryU buf pos 12 = 0 →
            ColliderComponentData.height ⟨buf, pos⟩ = 0)) := by
  refine ⟨fun b => by simp [add_collider_type], fun b => by simp [add_is_trigger],
    fun b r hr => by simp [add_radius, hr], fun b h hh => by simp [add_height, hh],
    ?_, ?_⟩
  · intro args
    refine ⟨?_, ?_, ?_, ?_⟩
    · intro h
      rw [buildColliderComponentDataBuffer, buildWith_eq]
      have h4 := fieldEntryU_layout_4 args [] (by simp)
      simp only [List.length_nil, Nat.mul_zero, Nat.add_zero] at h4
      rw [h4, e4v, if_pos h]
    · intro h
      rw [buildColliderComponentDataBuffer, buildWith_eq]
      have h6 := fieldEntryU_layout_6 args [] (by simp)
      simp only [List.length_nil, Nat.mul_zero, Nat.add_zero] at h6
      rw [h6, e6v, h, if_neg (by simp)]
    · intro h
      rw [buildColliderComponentDataBuffer, buildWith_eq]
      have h10 := fieldEntryU_layout_10 args [] (by simp)
      simp only [List.length_nil, Nat.mul_zero, Nat.add_zero] at h10
      rw [h10, e10v, if_pos h]
    · intro h
      rw [buildColliderComponentDataBuffer, buildWith_eq]
      have h12 := fieldEntryU_layout_12 args [] (by simp)
      simp only [List.length_nil, Nat.mul_zero, Nat.add_zero] at h12
      rw [h12, e12v, if_pos h]
  · intro buf pos
    refine ⟨?_, ?_, ?_, ?_⟩ <;>
      · intro h
        simp [ColliderComponentData.collider_type, ColliderComponentData.is_trigger,
          ColliderComponentData.radius, ColliderComponentData.height,
          tableGetScalarU, h, asI8]

/-- Witness for C2: writing the default radius `0.0` into a fresh builder
is the identity. -/
theorem c2_default_omission_witness :
    add_radius ⟨[], [], 0⟩ 0 = ⟨[], [], 0⟩ :=
  c2_default_omission.2.2.1 ⟨[], [], 0⟩ 0 (by decide)

/-- C6: forward compatibility — a buffer built with arbitrary extra
trailing vtable slot entries beyond the seven declared fields (a
newer-schema writer) still verifies, and every declared-field accessor
returns the same value as on the buffer built without the extra entries. -/
theorem c6_forward_compatibility (args : ColliderComponentDataArgs)
    (extra : List Nat) (hk : extra.length ≤ 1000)
    (hct1 : -128 ≤ args.collider_type) (hct2 : args.collider_type ≤ 127)
    (hrd : args.radius < 4294967296) (hht : args.height < 4294967296)
    (hsz : ∀ v ∈ args.size,
      v.x < 4294967296 ∧ v.y < 4294967296 ∧ v.z < 4294967296)
    (hml : ∀ s ∈ args.material_name, s.length ≤ 1048576)
    (hpl : ∀ s ∈ args.mesh_path, s.length ≤ 1048576) :
    root_as_collider_component_data (buildWith args extra) =
        .ok ⟨buildWith args extra, 26 + 2 * extra.length⟩ ∧
      (⟨buildWith args extra, 26 + 2 * extra.length⟩ :
          ColliderComponentData).collider_type =
        (⟨buildWith args [], 26⟩ : ColliderComponentData).collider_type ∧
      (⟨buildWith args extra, 26 + 2 * extra.length⟩ :
          ColliderComponentData).is_trigger =
        (⟨buildWith args [], 26⟩ : ColliderComponentData).is_trigger ∧
      (⟨buildWith args extra, 26 + 2 * extra.length⟩ :
          ColliderComponentData).size =
        (⟨buildWith args [], 26⟩ : ColliderComponentData).size ∧
      (⟨buildWith args extra, 26 + 2 * extra.length⟩ :
          ColliderComponentData).radius =
        (⟨buildWith args [], 26⟩ : ColliderComponentData).radius ∧
      (⟨buildWith args extra, 26 + 2 * extra.length⟩ :
          ColliderComponentData).height =
        (⟨buildWith args [], 26⟩ : ColliderComponentData).height ∧
      (⟨buildWith args extra, 26 + 2 * extra.length⟩ :
          ColliderComponentData).material_name =
        (⟨buildWith args [], 26⟩ : ColliderComponentData).material_name ∧
      (⟨buildWith args extra, 26 + 2 * extra.length⟩ :
          ColliderComponentData).mesh_path =
        (⟨buildWith args [], 26⟩ : ColliderComponentData).mesh_path := by
  rw [buildWith_eq args extra, buildWith_eq args []]
  refine ⟨root_as_layout args extra hk hml hpl, ?_, ?_, ?_, ?_, ?_, ?_, ?_⟩
  · exact (collider_type_layout args extra hk hct1 hct2).trans
      (collider_type_layout args [] (by simp) hct1 hct2).symm
  · exact (is_trigger_layout args extra hk).trans
      (is_trigger_layout args [] (by simp)).symm
  · exact (size_layout args extra hk hsz).trans
      (size_layout args [] (by simp) hsz).symm
  · exact (radius_layout args extra hk hrd).trans
      (radius_layout args [] (by simp) hrd).symm
  · exact (height_layout args extra hk hht).trans
      (height_layout args [] (by simp) hht).symm
  · exact (material_name_layout args extra hk hml hpl).trans
      (material_name_layout args [] (by simp) hml hpl).symm
  · exact (mesh_path_layout args extra hk hpl).trans
      (mesh_path_layout args [] (by simp) hpl).symm

/-- Witness for C6: two junk trailing vtable entries on the spec's
concrete scenario. -/
theorem c6_forward_compatibility_witness :
    root_as_collider_component_data
        (buildWith ⟨1, true, none, 1075838976, 0,
          some [114, 117, 98, 98, 101, 114], none⟩ [7, 9]) =
      .ok ⟨buildWith ⟨1, true, none, 1075838976, 0,
        some [114, 117, 98, 98, 101, 114], none⟩ [7, 9], 30⟩ :=
  (c6_forward_compatibility
      ⟨1, true, none, 1075838976, 0, some [114, 117, 98, 98, 101, 114], none⟩
      [7, 9] (by decide) (by decide) (by decide) (by decide) (by decide)
      (by intro v hv; cases hv)
      (by intro t ht; cases ht; decide)
      (by intro t ht; cases ht)).1

/-- C8: file identifier — the schema identifier is the four ASCII bytes
`"CLDR"`; every buffer finished through
`finish_collider_component_data_buffer` (which every `buildWith` run does)
carries it at offset 4, so `collider_component_data_buffer_has_identifier`
returns `true` on such buffers, and it returns `false` on every buffer
whose four identifier bytes differ from `"CLDR"`. -/
theorem c8_file_identifier (args : ColliderComponentDataArgs)
    (extra : List Nat) (buf : List Nat) :
    cldrBytes = [67, 76, 68, 82] ∧
      collider_component_data_buffer_has_identifier (buildWith args extra) =
        true ∧
      (readBytes buf 4 4 ≠ cldrBytes →
        collider_component_data_buffer_has_identifier buf = false) := by
  refine ⟨rfl, ?_, ?_⟩
  · rw [buildWith_eq]
    have hi := readBytes_layout_ident args extra
    have hl := length_colliderLayout args extra
    simp [collider_component_data_buffer_has_identifier, hi, hl]
    omega
  · intro h
    simp [collider_component_data_buffer_has_identifier, h]

/-- Witness for C8: an 8-byte all-zero buffer has no `"CLDR"` identifier. -/
theorem c8_file_identifier_witness :
    collider_component_data_buffer_has_identifier [0, 0, 0, 0, 0, 0, 0, 0] =
      false :=
  (c8_file_identifier ⟨0, false, none, 0, 0, none, none⟩ []
      [0, 0, 0, 0, 0, 0, 0, 0]).2.2 (by decide)

theorem pre_read_sz_bytes (args : ColliderComponentDataArgs) (v : Vec3)
    (hs : args.size = some v) :
    readBytes (preOwned args)
      ((ctSeg args.collider_type).length + (trSeg args.is_trigger).length) 12 =
      vec3Bytes v := by
  simp only [preOwned, scalarSegs, List.append_assoc]
  rw [readBytes_skip (ctSeg args.collider_type) _ _
    (trSeg args.is_trigger).length 12 (by omega)]
  rw [readBytes_skip (trSeg args.is_trigger) _ _ 0 12 (by omega)]
  rw [hs]
  rw [readBytes_append_left _ _ _ _ (by simp [szSeg])]
  rw [szSeg]
  rw [readBytes_zero_of_full _ _ (by simp)]

/-- C9: the optional `Vec3` field `size` is stored inline —
`add_size` emplaces the 12 struct bytes directly in the table (the bytes
at the slot's location are the struct's own encoding, with no 4-byte
forward offset), and the `size()` accessor reads them in place, returning
`Some` of the in-place decode when the slot is present and `None` when it
is absent. -/
theorem c9_size_stored_inline (args : ColliderComponentDataArgs) :
    (∀ v : Vec3, args.size = some v →
      v.x < 4294967296 → v.y < 4294967296 → v.z < 4294967296 →
      ¬fieldEntryU (buildColliderComponentDataBuffer args) 26 8 = 0 ∧
        readBytes (buildColliderComponentDataBuffer args)
            (26 + fieldEntryU (buildColliderComponentDataBuffer args) 26 8) 12 =
          vec3Bytes v ∧
        ColliderComponentData.size ⟨buildColliderComponentDataBuffer args, 26⟩ =
          some (vec3Follow (buildColliderComponentDataBuffer args)
            (26 + fieldEntryU (buildColliderComponentDataBuffer args) 26 8)) ∧
        vec3Follow (buildColliderComponentDataBuffer args)
            (26 + fieldEntryU (buildColliderComponentDataBuffer args) 26 8) =
          v) ∧
      (args.size = none →
        ColliderComponentData.size ⟨buildColliderComponentDataBuffer args, 26⟩ =
          none) := by
  constructor
  · intro v hs hx hy hz
    rw [buildColliderComponentDataBuffer, buildWith_eq]
    have hE := fieldEntryU_layout_8 args [] (by simp)
    simp only [List.length_nil, Nat.mul_zero, Nat.add_zero] at hE
    have hEv : e8v args =
        4 + (ctSeg args.collider_type).length + (trSeg args.is_trigger).length := by
      simp [e8v, hs]
    have hne : ¬fieldEntryU (colliderLayout args []) 26 8 = 0 := by
      rw [hE, hEv]
      omega
    have hsz : ColliderComponentData.size ⟨colliderLayout args [], 26⟩ =
        args.size :=
      size_layout args [] (by simp)
        (by
          intro w hw
          rw [hs] at hw
          cases hw
          exact ⟨hx, hy, hz⟩)
    have hacc : ColliderComponentData.size ⟨colliderLayout args [], 26⟩ =
        some (vec3Follow (colliderLayout args [])
          (26 + fieldEntryU (colliderLayout args []) 26 8)) := by
      simp only [ColliderComponentData.size]
      rw [if_neg hne]
    refine ⟨hne, ?_, hacc, ?_⟩
    · rw [hE, hEv]
      have hq : 26 + (4 + (ctSeg args.collider_type).length +
          (trSeg args.is_trigger).length) =
          30 + 2 * ([] : List Nat).length +
            ((ctSeg args.collider_type).length +
              (trSeg args.is_trigger).length) := by
        simp
        omega
      rw [hq, readBytes_layout_pre, pre_read_sz_bytes args v hs]
    · have := hacc.symm.trans hsz
      rw [hs] at this
      exact Option.some.inj this
  · intro h
    have hsz := size_layout args [] (by simp)
      (by
        intro w hw
        rw [h] at hw
        cases hw)
    rw [buildColliderComponentDataBuffer, buildWith_eq]
    rw [show (⟨colliderLayout args [], (26 : Nat)⟩ : ColliderComponentData) =
      ⟨colliderLayout args [], 26 + 2 * ([] : List Nat).length⟩ from rfl]
    rw [hsz, h]

/-- Witness for C9 at a concrete vector value. -/
theorem c9_size_stored_inline_witness :
    ¬fieldEntryU (buildColliderComponentDataBuffer
        ⟨0, false, some ⟨1, 2, 3⟩, 0, 0, none, none⟩) 26 8 = 0 :=
  ((c9_size_stored_inline ⟨0, false, some ⟨1, 2, 3⟩, 0, 0, none, none⟩).1
    ⟨1, 2, 3⟩ rfl (by decide) (by decide) (by decide)).1

/-! ## Truncated buffers -/

theorem visit_table_take (buf : List Nat) (pos vt vl n : Nat)
    (hn : n ≤ buf.length)
    (horig : visit_table buf pos = .ok (vt, vl)) :
    (visit_table (buf.take n) pos = .ok (vt, vl) ∧ vt + vl ≤ n) ∨
      ∃ e, visit_table (buf.take n) pos = .error e ∧ isBoundsViolation e = true := by
  obtain ⟨o1, o2, o3, o4, o5, o6, o7⟩ := (visit_table_ok_iff buf pos vt vl).mp horig
  have hlen : (buf.take n).length = n := by
    rw [List.length_take]
    omega
  cases htk : visit_table (buf.take n) pos with
  | ok tv =>
    left
    obtain ⟨vt', vl'⟩ := tv
    obtain ⟨t1, t2, t3, t4, t5, t6, t7⟩ := (visit_table_ok_iff _ _ _ _).mp htk
    rw [hlen] at t1 t4 t7
    have hr1 : readLEU (buf.take n) pos 4 = readLEU buf pos 4 :=
      readLEU_take buf n pos 4 t1
    have hvt : vt' = vt := by
      rw [t3, o3]
      simp only [tableVtU, hr1]
    subst hvt
    have hr2 : readLEU (buf.take n) vt' 2 = readLEU buf vt' 2 :=
      readLEU_take buf n vt' 2 (by omega)
    have hvl : vl' = vl := by rw [t5, o5, hr2]
    subst hvl
    exact ⟨rfl, by omega⟩
  | error e =>
    right
    refine ⟨e, rfl, ?_⟩
    simp only [visit_table, checkRead] at htk
    simp only [tableVtU] at o3
    by_cases c1 : pos + 4 ≤ (buf.take n).length
    · rw [if_pos c1] at htk
      simp only [Except.bind, bind] at htk
      rw [hlen] at c1
      rw [readLEU_take buf n pos 4 c1] at htk
      rw [if_neg o2, ← o3] at htk
      by_cases c2 : vt + 2 ≤ (buf.take n).length
      · rw [if_pos c2] at htk
        simp only [Except.bind, bind] at htk
        rw [hlen] at c2
        rw [readLEU_take buf n vt 2 c2, ← o5] at htk
        rw [if_neg (by omega)] at htk
        by_cases c3 : vt + vl ≤ (buf.take n).length
        · rw [if_pos c3] at htk
          exact absurd htk (by simp)
        · rw [if_neg c3] at htk
          injection htk with h
          subst h
          rfl
      · rw [if_neg c2] at htk
        simp only [Except.bind, bind] at htk
        injection htk with h
        subst h
        rfl
    · rw [if_neg c1] at htk
      simp only [Except.bind, bind] at htk
      injection htk with h
      subst h
      rfl

set_option maxHeartbeats 2000000 in
theorem visit_string_take_err (buf : List Nat) (pos vt vl voff n : Nat)
    (e : InvalidFlatbuffer) (hn : n ≤ buf.length) (hvt : vt + vl ≤ n)
    (horig : visit_string_field buf pos vt vl voff = .ok ())
    (htr : visit_string_field (buf.take n) pos vt vl voff = .error e) :
    isBoundsViolation e = true := by
  have hlen : (buf.take n).length = n := by
    rw [List.length_take]
    omega
  simp only [visit_string_field, checkRead] at htr
  by_cases hg : voff + 2 ≤ vl
  · rw [if_pos hg] at htr
    have hent : readLEU (buf.take n) (vt + voff) 2 = readLEU buf (vt + voff) 2 :=
      readLEU_take buf n (vt + voff) 2 (by omega)
    rw [hent] at htr
    by_cases he : readLEU buf (vt + voff) 2 = 0
    · rw [if_pos he] at htr
      exact absurd htr (by simp)
    · rw [if_neg he] at htr
      rcases (visit_string_ok_iff buf pos vt vl voff).mp horig hg with h0 | hb
      · exact absurd h0 (by simpa [entryOf] using he)
      simp only [entryOf, spOf] at hb
      obtain ⟨ob1, ob2, ob3, ob4⟩ := hb
      by_cases c1 : pos + readLEU buf (vt + voff) 2 + 4 ≤ (buf.take n).length
      · rw [if_pos c1] at htr
        simp only [Except.bind, bind] at htr
        rw [hlen] at c1
        rw [readLEU_take buf n (pos + readLEU buf (vt + voff) 2) 4 c1] at htr
        by_cases c2 : pos + readLEU buf (vt + voff) 2 +
            readLEU buf (pos + readLEU buf (vt + voff) 2) 4 + 4 ≤
            (buf.take n).length
        · rw [if_pos c2] at htr
          simp only [Except.bind, bind] at htr
          rw [hlen] at c2
          rw [readLEU_take buf n (pos + readLEU buf (vt + voff) 2 +
            readLEU buf (pos + readLEU buf (vt + voff) 2) 4) 4 c2] at htr
          by_cases c3 : pos + readLEU buf (vt + voff) 2 +
              readLEU buf (pos + readLEU buf (vt + voff) 2) 4 + 4 +
                readLEU buf (pos + readLEU buf (vt + voff) 2 +
                  readLEU buf (pos + readLEU buf (vt + voff) 2) 4) 4 + 1 ≤
              (buf.take n).length
          · rw [if_pos c3] at htr
            rw [hlen] at c3
            rw [readLEU_take buf n (pos + readLEU buf (vt + voff) 2 +
              readLEU buf (pos + readLEU buf (vt + voff) 2) 4 + 4 +
              readLEU buf (pos + readLEU buf (vt + voff) 2 +
                readLEU buf (pos + readLEU buf (vt + voff) 2) 4) 4) 1
              (by omega)] at htr
            rw [ob4, if_pos rfl] at htr
            exact absurd htr (by simp)
          · rw [if_neg c3] at htr
            injection htr with h
            subst h
            rfl
        · rw [if_neg c2] at htr
          simp only [Except.bind, bind] at htr
          injection htr with h
          subst h
          rfl
      · rw [if_neg c1] at htr
        simp only [Except.bind, bind] at htr
        injection htr with h
        subst h
        rfl
  · rw [if_neg hg] at htr
    exact absurd htr (by simp)

theorem visit_string_take_ok_sp (buf : List Nat) (pos vt vl voff n : Nat)
    (hn : n ≤ buf.length) (hvt : vt + vl ≤ n)
    (htr : visit_string_field (buf.take n) pos vt vl voff = .ok ())
    (hg : voff + 2 ≤ vl) (he : ¬entryOf buf vt voff = 0) :
    spOf buf pos (entryOf buf vt voff) + 4 ≤ n := by
  have hlen : (buf.take n).length = n := by
    rw [List.length_take]
    omega
  have hent : entryOf (buf.take n) vt voff = entryOf buf vt voff := by
    simp only [entryOf]
    exact readLEU_take buf n (vt + voff) 2 (by omega)
  rcases (visit_string_ok_iff (buf.take n) pos vt vl voff).mp htr hg with h0 | hb
  · rw [hent] at h0
    exact absurd h0 he
  · obtain ⟨b1, b2, -, -⟩ := hb
    rw [hent] at b1 b2
    rw [hlen] at b1 b2
    simp only [spOf] at b2 ⊢
    rw [readLEU_take buf n (pos + entryOf buf vt voff) 4 b1] at b2
    exact b2

/-- The root table's vtable position and recorded length, located through
the root offset and the table's backward soffset (proof support: states
where a truncation cut falls). -/
def rootVtableSpan (buf : List Nat) : Nat × Nat :=
  let vt := tableVtU buf (readLEU buf 0 4)
  (vt, readLEU buf vt 2)

/-- The buffer position of the 4-byte length prefix of the root table's
string field at vtable slot `voff` (follow the slot's table-relative
offset, then the 4-byte forward offset); `none` when the slot is absent. -/
def rootStrFieldPos (buf : List Nat) (voff : Nat) : Option Nat :=
  let pos := readLEU buf 0 4
  let e := fieldEntryU buf pos voff
  if e = 0 then none else some (spOf buf pos e)

theorem rootStrFieldPos_some (buf : List Nat) (voff sp : Nat)
    (h : rootStrFieldPos buf voff = some sp) :
    voff + 2 ≤ readLEU buf (tableVtU buf (readLEU buf 0 4)) 2 ∧
      ¬entryOf buf (tableVtU buf (readLEU buf 0 4)) voff = 0 ∧
      sp = spOf buf (readLEU buf 0 4)
        (entryOf buf (tableVtU buf (readLEU buf 0 4)) voff) := by
  simp only [rootStrFieldPos, fieldEntryU, entryOf] at h ⊢
  by_cases h1 : voff + 2 ≤ readLEU buf (tableVtU buf (readLEU buf 0 4)) 2
  · rw [if_pos h1] at h
    by_cases h2 : readLEU buf (tableVtU buf (readLEU buf 0 4) + voff) 2 = 0
    · rw [if_pos h2] at h
      exact absurd h (by simp)
    · rw [if_neg h2] at h
      injection h with h
      exact ⟨h1, h2, h.symm⟩
  · rw [if_neg h1] at h
    simp at h

theorem run_verifier_err_table (buf : List Nat) (pos : Nat) (e : InvalidFlatbuffer)
    (h : visit_table buf pos = .error e) : run_verifier buf pos = .error e := by
  simp only [run_verifier, h, Except.bind, bind]

theorem run_verifier_after_table (buf : List Nat) (pos vt vl : Nat)
    (hT : visit_table buf pos = .ok (vt, vl)) :
    run_verifier buf pos = (do
      visit_scalar_field buf pos vt vl 4 1
      visit_scalar_field buf pos vt vl 6 1
      visit_scalar_field buf pos vt vl 8 12
      visit_scalar_field buf pos vt vl 10 4
      visit_scalar_field buf pos vt vl 12 4
      visit_string_field buf pos vt vl 14
      visit_string_field buf pos vt vl 16) := by
  simp only [run_verifier, hT, Except.bind, bind]

theorem root_as_err_of_rv (buf : List Nat) (e : InvalidFlatbuffer)
    (h4 : 4 ≤ buf.length) (hrv : run_verifier buf (readLEU buf 0 4) = .error e) :
    root_as_collider_component_data buf = .error e := by
  simp only [root_as_collider_component_data, checkRead]
  rw [if_pos (by omega : 0 + 4 ≤ buf.length)]
  simp only [Except.bind, bind, hrv]

theorem seq_err {x : Except InvalidFlatbuffer Unit}
    {f : Unit → Except InvalidFlatbuffer Unit} {e : InvalidFlatbuffer}
    (h : (x >>= f) = .error e) : x = .error e ∨ (x = .ok () ∧ f () = .error e) := by
  cases x with
  | error eo =>
    simp only [Except.bind, bind] at h
    left
    exact h
  | ok u =>
    cases u
    right
    exact ⟨rfl, by simpa only [Except.bind, bind] using h⟩

/-- C3: corruption rejection — truncating a valid buffer at a byte
boundary that cuts through the root table's vtable or through a string
field's length prefix makes `root_as_collider_component_data` return an
error with an in-bounds-violation reason, never a successful view. -/
theorem c3_truncation_rejected (buf : List Nat) (d : ColliderComponentData) (n : Nat)
    (hok : root_as_collider_component_data buf = .ok d) (hn : n ≤ buf.length)
    (hcut :
      ((rootVtableSpan buf).1 < n ∧
          n < (rootVtableSpan buf).1 + (rootVtableSpan buf).2) ∨
        (∃ sp, (rootStrFieldPos buf 14 = some sp ∨ rootStrFieldPos buf 16 = some sp) ∧
          sp < n ∧ n < sp + 4)) :
    ∃ e, root_as_collider_component_data (buf.take n) = .error e ∧
      isBoundsViolation e = true := by
  have hlen : (buf.take n).length = n := by
    rw [List.length_take]
    omega
  obtain ⟨hb4, -, -, hrv⟩ := (root_as_ok_iff buf d).mp hok
  obtain ⟨vt, vl, hT, hs4, hs6, hs8, hs10, hs12, hm14, hm16⟩ :=
    (run_verifier_ok_iff buf (readLEU buf 0 4)).mp hrv
  by_cases h4n : 4 ≤ n
  · have hr0 : readLEU (buf.take n) 0 4 = readLEU buf 0 4 :=
      readLEU_take buf n 0 4 (by omega)
    rcases visit_table_take buf (readLEU buf 0 4) vt vl n hn hT with
      ⟨hTok, hvln⟩ | ⟨e, hTerr, hbv⟩
    · obtain ⟨-, -, hvtEq, -, hvlEq, -, -⟩ :=
        (visit_table_ok_iff buf (readLEU buf 0 4) vt vl).mp hT
      rcases hcut with ⟨-, hcutA⟩ | ⟨sp, hspo, -, hspn⟩
      · exfalso
        simp only [rootVtableSpan] at hcutA
        rw [← hvtEq, ← hvlEq] at hcutA
        omega
      · have hchain := run_verifier_after_table (buf.take n) (readLEU buf 0 4) vt vl hTok
        cases hch : run_verifier (buf.take n) (readLEU buf 0 4) with
        | error e =>
          refine ⟨e, root_as_err_of_rv (buf.take n) e (by omega)
            (by rw [hr0]; exact hch), ?_⟩
          rw [hchain] at hch
          rcases seq_err hch with h | ⟨-, hch⟩
          · exact visit_scalar_err_bounds _ _ _ _ _ _ e h
          rcases seq_err hch with h | ⟨-, hch⟩
          · exact visit_scalar_err_bounds _ _ _ _ _ _ e h
          rcases seq_err hch with h | ⟨-, hch⟩
          · exact visit_scalar_err_bounds _ _ _ _ _ _ e h
          rcases seq_err hch with h | ⟨-, hch⟩
          · exact visit_scalar_err_bounds _ _ _ _ _ _ e h
          rcases seq_err hch with h | ⟨-, hch⟩
          · exact visit_scalar_err_bounds _ _ _ _ _ _ e h
          rcases seq_err hch with h | ⟨-, hch⟩
          · exact visit_string_take_err buf (readLEU buf 0 4) vt vl 14 n e hn hvln hm14 h
          · exact visit_string_take_err buf (readLEU buf 0 4) vt vl 16 n e hn hvln hm16 hch
        | ok u =>
          cases u
          exfalso
          obtain ⟨vt', vl', hT', hs4', hs6', hs8', hs10', hs12', h14', h16'⟩ :=
            (run_verifier_ok_iff (buf.take n) (readLEU buf 0 4)).mp hch
          rw [hTok] at hT'
          injection hT' with hp
          injection hp with h1 h2
          subst h1
          subst h2
          rcases hspo with hsp14 | hsp16
          · obtain ⟨hg, he, hspEq⟩ := rootStrFieldPos_some buf 14 sp hsp14
            rw [← hvtEq] at hg he hspEq
            rw [← hvlEq] at hg
            have hsp4 := visit_string_take_ok_sp buf (readLEU buf 0 4) vt vl 14 n
              hn hvln h14' hg he
            omega
          · obtain ⟨hg, he, hspEq⟩ := rootStrFieldPos_some buf 16 sp hsp16
            rw [← hvtEq] at hg he hspEq
            rw [← hvlEq] at hg
            have hsp4 := visit_string_take_ok_sp buf (readLEU buf 0 4) vt vl 16 n
              hn hvln h16' hg he
            omega
    · exact ⟨e, root_as_err_of_rv (buf.take n) e (by omega)
        (by rw [hr0]; exact run_verifier_err_table (buf.take n) (readLEU buf 0 4) e hTerr),
        hbv⟩
  · refine ⟨.rangeOutOfBounds 0, ?_, rfl⟩
    simp only [root_as_collider_component_data, checkRead]
    rw [if_neg (show ¬0 + 4 ≤ (buf.take n).length by rw [hlen]; omega)]
    simp only [Except.bind, bind]

/-- Concrete example data for exercising the truncation claim: a buffer
with a mesh-path string, truncated inside the root vtable. -/
def c3ExampleArgs : ColliderComponentDataArgs :=
  ⟨2, false, none, 0, 1077936128, none, some [109, 101, 115, 104]⟩

def c3ExampleBuf : List Nat := buildColliderComponentDataBuffer c3ExampleArgs

theorem c3_truncation_rejected_witness :
    root_as_collider_component_data c3ExampleBuf = .ok ⟨c3ExampleBuf, 26⟩ ∧
      20 ≤ c3ExampleBuf.length ∧
      (rootVtableSpan c3ExampleBuf).1 < 20 ∧
      20 < (rootVtableSpan c3ExampleBuf).1 + (rootVtableSpan c3ExampleBuf).2 ∧
      ∃ e, root_as_collider_component_data (c3ExampleBuf.take 20) = .error e ∧
        isBoundsViolation e = true :=
  ⟨by rfl, by decide, by decide, by decide,
    c3_truncation_rejected c3ExampleBuf ⟨c3ExampleBuf, 26⟩ 20 (by rfl) (by decide)
      (Or.inl ⟨by decide, by decide⟩)⟩

end PixelCraftECS
